import Mathlib

/-!
Verification development for the FS2D farm-simulation engine
(src/fs2d.js).  The JavaScript source is shallowly embedded: pure
functions become Lean functions, JavaScript numbers become rationals
(positions, velocities, fuel, money) or naturals / integers (tile
indices, growth stages, timestamps), and code paths that would throw a
TypeError (dereferencing an undefined out-of-bounds array element)
return none.
-/

namespace FS2D

/-! ## Constants (gameConstants section of the source) -/

def TILE_SIZE : ℚ := 20

def GRAVITY : ℚ := 1/2

def WORLD_WIDTH_TILES : ℕ := 150

def WORLD_HEIGHT_TILES : ℕ := 30

def WORLD_WIDTH_PIXELS : ℚ := (WORLD_WIDTH_TILES : ℚ) * TILE_SIZE

def WORLD_HEIGHT_PIXELS : ℚ := (WORLD_HEIGHT_TILES : ℚ) * TILE_SIZE

/-- 5000 ms per growth stage. -/
def GROWTH_TIME_PER_STAGE : ℤ := 5000

/-- Tile types (the TILE_TYPE enum of the source). -/
inductive TileType where
  | sky
  | grass
  | dirt
  | tilled
  | cropPlanted
  | cropGrown
deriving DecidableEq, Repr

/-- Crop kinds (the CROP_TYPE enum of the source). -/
inductive CropType where
  | wheat
  | corn
  | potato
deriving DecidableEq, Repr

/-- Crop growth stages (the CROP_STAGE enum: SEED = 0, YOUNG = 1,
MATURE = 2).  Stages are JavaScript numbers in the source, so they are
embedded as naturals, not as a three-element enum. -/
def CROP_STAGE_SEED : ℕ := 0

def CROP_STAGE_YOUNG : ℕ := 1

def CROP_STAGE_MATURE : ℕ := 2

/-! ## Celestial / lighting model -/

/-- A color as an RGB byte triple.  The source stores colors as hex
strings; hexToRgb / rgbToHex in lerpColor convert losslessly between the
two representations, so the embedding works on the RGB triples
directly. -/
structure RGB where
  r : ℤ
  g : ℤ
  b : ℤ
deriving DecidableEq, Repr

/-- JavaScript Math.round: round half toward positive infinity. -/
def jsRound (q : ℚ) : ℤ := ⌊q + 1/2⌋

/-- lerpColor from the source: per-channel linear interpolation with
Math.round on each channel. -/
def lerpColor (c1 c2 : RGB) (factor : ℚ) : RGB :=
  { r := jsRound ((c1.r : ℚ) + factor * ((c2.r : ℚ) - (c1.r : ℚ)))
    g := jsRound ((c1.g : ℚ) + factor * ((c2.g : ℚ) - (c1.g : ℚ)))
    b := jsRound ((c1.b : ℚ) + factor * ((c2.b : ℚ) - (c1.b : ℚ))) }

/-- The day-night color constants of the source, as RGB triples of their
hex values. -/
def DEEP_NIGHT_SKY_COLOR : RGB := ⟨0x1A, 0x1A, 0x2E⟩

def DAWN_SKY_COLOR : RGB := ⟨0x46, 0x82, 0xB4⟩

def SUNRISE_TINT_COLOR : RGB := ⟨0xFF, 0xC0, 0xCB⟩

def MORNING_SKY_COLOR : RGB := ⟨0x87, 0xCE, 0xEB⟩

def AFTERNOON_SKY_COLOR : RGB := ⟨0x6A, 0x5A, 0xCD⟩

def SUNSET_TINT_COLOR : RGB := ⟨0xFF, 0x7F, 0x50⟩

def DUSK_SKY_COLOR : RGB := ⟨0x48, 0x3D, 0x8B⟩

/-- The color pack passed to getSkyColor (the source passes the module
constants as one object). -/
structure SkyColors where
  deepNight : RGB
  dawn : RGB
  sunriseTint : RGB
  morning : RGB
  afternoon : RGB
  sunsetTint : RGB
deriving DecidableEq, Repr

def defaultSkyColors : SkyColors :=
  { deepNight := DEEP_NIGHT_SKY_COLOR
    dawn := DAWN_SKY_COLOR
    sunriseTint := SUNRISE_TINT_COLOR
    morning := MORNING_SKY_COLOR
    afternoon := AFTERNOON_SKY_COLOR
    sunsetTint := SUNSET_TINT_COLOR }

/-- getSkyColor from the source: piecewise interpolation over the day. -/
def getSkyColor (time : ℚ) (colors : SkyColors) : RGB :=
  if 0 ≤ time ∧ time < 5 then
    colors.deepNight
  else if 5 ≤ time ∧ time < 6 then
    lerpColor colors.deepNight colors.dawn ((time - 5) / 1)
  else if 6 ≤ time ∧ time < 7 then
    lerpColor colors.dawn colors.sunriseTint ((time - 6) / 1)
  else if 7 ≤ time ∧ time < 9 then
    lerpColor colors.sunriseTint colors.morning ((time - 7) / 2)
  else if 9 ≤ time ∧ time < 16 then
    colors.morning
  else if 16 ≤ time ∧ time < 18 then
    lerpColor colors.morning colors.afternoon ((time - 16) / 2)
  else if 18 ≤ time ∧ time < 19 then
    lerpColor colors.afternoon colors.sunsetTint ((time - 18) / 1)
  else if 19 ≤ time ∧ time < 21 then
    lerpColor colors.sunsetTint colors.deepNight ((time - 19) / 2)
  else
    colors.deepNight

/-- getAmbientLightFactor from the source: piecewise-linear light level. -/
def getAmbientLightFactor (time : ℚ) : ℚ :=
  if 5 ≤ time ∧ time < 7 then
    1/10 + (time - 5) / 2 * (4/10)
  else if 7 ≤ time ∧ time < 9 then
    5/10 + (time - 7) / 2 * (5/10)
  else if 9 ≤ time ∧ time < 17 then
    1
  else if 17 ≤ time ∧ time < 19 then
    1 - (time - 17) / 2 * (5/10)
  else if 19 ≤ time ∧ time < 21 then
    5/10 - (time - 19) / 2 * (4/10)
  else
    1/10

/-- The individual linear pieces of getAmbientLightFactor, named after
the part of the day they cover; used to state continuity at the
breakpoints ("the value of the segment ending at t equals the value of
the segment starting at t"). -/
def ambientNight (_t : ℚ) : ℚ := 1/10

def ambientDawn (t : ℚ) : ℚ := 1/10 + (t - 5) / 2 * (4/10)

def ambientMorning (t : ℚ) : ℚ := 5/10 + (t - 7) / 2 * (5/10)

def ambientDay (_t : ℚ) : ℚ := 1

def ambientEvening (t : ℚ) : ℚ := 1 - (t - 17) / 2 * (5/10)

def ambientDusk (t : ℚ) : ℚ := 5/10 - (t - 19) / 2 * (4/10)

/-- The individual pieces of getSkyColor. -/
def skyDeepNight (_t : ℚ) (colors : SkyColors) : RGB := colors.deepNight

def skyLateNight (t : ℚ) (colors : SkyColors) : RGB :=
  lerpColor colors.deepNight colors.dawn ((t - 5) / 1)

def skySunrise (t : ℚ) (colors : SkyColors) : RGB :=
  lerpColor colors.dawn colors.sunriseTint ((t - 6) / 1)

def skyMorningTransition (t : ℚ) (colors : SkyColors) : RGB :=
  lerpColor colors.sunriseTint colors.morning ((t - 7) / 2)

def skyMidday (_t : ℚ) (colors : SkyColors) : RGB := colors.morning

def skyAfternoon (t : ℚ) (colors : SkyColors) : RGB :=
  lerpColor colors.morning colors.afternoon ((t - 16) / 2)

def skySunset (t : ℚ) (colors : SkyColors) : RGB :=
  lerpColor colors.afternoon colors.sunsetTint ((t - 18) / 1)

def skyDusk (t : ℚ) (colors : SkyColors) : RGB :=
  lerpColor colors.sunsetTint colors.deepNight ((t - 19) / 2)

/-! ## World grid data model -/

/-- Crop sub-state of a tile (the object stored in tile.crop).  The
stage is a JavaScript number; plantedTime is an epoch-millisecond
timestamp (Date.now()). -/
structure Crop where
  type : CropType
  stage : ℕ
  plantedTime : ℤ
deriving DecidableEq, Repr

/-- One tile of the world grid. -/
structure Tile where
  type : TileType
  crop : Option Crop
deriving DecidableEq, Repr

/-- The world grid: a row-major list of rows of tiles (the source's
world[y][x]). -/
abbrev World := List (List Tile)

/-- world[y][x] as an Option: some tile when both indices are inside the
nested arrays, none when the JavaScript access would produce undefined
(negative index, row index past the end, or column past the row). -/
def getTileI (w : World) (y x : ℤ) : Option Tile :=
  if 0 ≤ y ∧ 0 ≤ x then
    match List.get? w y.toNat with
    | some row => List.get? row x.toNat
    | none => none
  else none

/-- In-place update newWorld[y][x] = t (a no-op for indices outside the
grid, which the source never performs on the assignment side). -/
def setTile (w : World) (y x : ℤ) (t : Tile) : World :=
  if 0 ≤ y ∧ 0 ≤ x then
    List.set w y.toNat (List.set ((List.get? w y.toNat).getD []) x.toNat t)
  else w

/-- Index-aware map over a list, starting the index at i.  Used to embed
the world.map((row, y) => row.map((tile, x) => ...)) pattern of the
source. -/
def mapIdxFrom (f : ℕ → α → α) : ℕ → List α → List α
  | _, [] => []
  | i, a :: as => f i a :: mapIdxFrom f (i + 1) as

/-- Math.floor(30 * 0.75) = 22: first ground row of the generated
world. -/
def groundStartRow : ℕ := WORLD_HEIGHT_TILES * 3 / 4

/-- generateWorld from the source (the world-grid part): sky above the
ground rows, three rows of grass, dirt below; no tile has a crop. -/
def generateWorld : World :=
  (List.range WORLD_HEIGHT_TILES).map (fun y =>
    (List.range WORLD_WIDTH_TILES).map (fun _x =>
      if groundStartRow ≤ y ∧ y < groundStartRow + 3 then
        { type := TileType.grass, crop := none }
      else if groundStartRow + 3 ≤ y then
        { type := TileType.dirt, crop := none }
      else
        { type := TileType.sky, crop := none }))

/-! ## Entities -/

/-- Equipment kinds a tractor can reference (tractor.equipment.type). -/
inductive EquipKind where
  | plow
  | seeder
deriving DecidableEq, Repr

/-- The player inventory object: three seed kinds and three harvested
crop kinds, all counts. -/
structure Inventory where
  wheatSeeds : ℕ
  cornSeeds : ℕ
  potatoSeeds : ℕ
  wheat : ℕ
  corn : ℕ
  potato : ℕ
deriving DecidableEq, Repr

/-- inventory[wheatSeeds] etc. for a selected crop kind. -/
def seedCount (c : CropType) (inv : Inventory) : ℕ :=
  match c with
  | CropType.wheat => inv.wheatSeeds
  | CropType.corn => inv.cornSeeds
  | CropType.potato => inv.potatoSeeds

/-- inventory[wheat] etc. for a harvested crop kind. -/
def cropCount (c : CropType) (inv : Inventory) : ℕ :=
  match c with
  | CropType.wheat => inv.wheat
  | CropType.corn => inv.corn
  | CropType.potato => inv.potato

/-- Decrement the seed count of one kind by one. -/
def decSeed (c : CropType) (inv : Inventory) : Inventory :=
  match c with
  | CropType.wheat => { inv with wheatSeeds := inv.wheatSeeds - 1 }
  | CropType.corn => { inv with cornSeeds := inv.cornSeeds - 1 }
  | CropType.potato => { inv with potatoSeeds := inv.potatoSeeds - 1 }

/-- Increment the harvested-crop count of one kind by one. -/
def incCrop (c : CropType) (inv : Inventory) : Inventory :=
  match c with
  | CropType.wheat => { inv with wheat := inv.wheat + 1 }
  | CropType.corn => { inv with corn := inv.corn + 1 }
  | CropType.potato => { inv with potato := inv.potato + 1 }

/-- A physical entity (player, tractor, combine, plow, seeder).  The
source stores each as a plain object; this structure is the union of
the fields those objects carry, so that the one updateEntityPosition
function applies to all of them and the frame conditions (which fields
a function leaves untouched) can be stated. -/
structure Entity where
  x : ℚ
  y : ℚ
  width : ℚ
  height : ℚ
  vx : ℚ
  vy : ℚ
  onGround : Bool
  speed : ℚ
  jumpPower : ℚ
  fuel : ℚ
  maxFuel : ℚ
  fuelConsumption : ℚ
  facing : String
  isInVehicle : Bool
  isHitched : Bool
  equipment : Option EquipKind
  inventory : Inventory
  money : ℚ
  maxStorage : ℕ
  siloBuilt : Bool
  upgradeLevel : ℕ
  type : String
deriving DecidableEq, Repr

/-! ## Physics / collision resolver -/

/-- The inclusive integer range [a, b] (empty when b < a): the index
values taken by a JavaScript for-loop from a to b inclusive. -/
def intRange (a b : ℤ) : List ℤ :=
  (List.range (b + 1 - a).toNat).map (fun i => a + (i : ℤ))

/-- The (y, x) tile-index pairs scanned by the collision loop: rows top
to bottom, columns left to right. -/
def scanIndices (top bottom left right : ℤ) : List (ℤ × ℤ) :=
  (intRange top bottom).flatMap (fun y => (intRange left right).map (fun x => (y, x)))

/-- The body of the collision loop of updateEntityPosition, for one
scanned index pair: bounds check, non-sky check, AABB intersection
check with the current entity position, then single-axis resolution in
the source's precedence order.  The tile lookup world[y][x] is guarded
by y < world.length, so it can only miss when a row is shorter than
WORLD_WIDTH_TILES; every world built by generateWorld (and every world
the game mutates) has full-length rows, and the embedding skips such a
missing tile. -/
def collideTile (world : World) (e : Entity) (yx : ℤ × ℤ) : Entity :=
  let y := yx.1
  let x := yx.2
  if 0 ≤ x ∧ x < (WORLD_WIDTH_TILES : ℤ) ∧ 0 ≤ y ∧ y < (world.length : ℤ) then
    match getTileI world y x with
    | none => e
    | some tile =>
      if tile.type ≠ TileType.sky then
        let tileTop := (y : ℚ) * TILE_SIZE
        let tileBottom := tileTop + TILE_SIZE
        let tileLeft := (x : ℚ) * TILE_SIZE
        let tileRight := tileLeft + TILE_SIZE
        if e.x < tileRight ∧ e.x + e.width > tileLeft ∧
            e.y < tileBottom ∧ e.y + e.height > tileTop then
          if e.vy > 0 ∧ e.y + e.height ≤ tileBottom ∧ e.y + e.height ≥ tileTop then
            { e with y := tileTop - e.height, vy := 0, onGround := true }
          else if e.vy < 0 then
            { e with y := tileBottom, vy := 0 }
          else if e.vx > 0 then
            { e with x := tileLeft - e.width, vx := 0 }
          else if e.vx < 0 then
            { e with x := tileRight, vx := 0 }
          else e
        else e
      else e
  else e

/-- updateEntityPosition from the source: integrate gravity and
velocity, clamp x to the world, then resolve collisions against every
tile of the scan rectangle (computed once from the post-integration
position) in scan order. -/
def updateEntityPosition (entity : Entity) (world : World) : Entity :=
  let e0 := { entity with vy := entity.vy + GRAVITY }
  let e1 := { e0 with y := e0.y + e0.vy, x := e0.x + e0.vx, onGround := false }
  let e2 := if e1.x < 0 then { e1 with x := 0 } else e1
  let e3 := if e2.x + e2.width > WORLD_WIDTH_PIXELS
            then { e2 with x := WORLD_WIDTH_PIXELS - e2.width } else e2
  let leftTile := ⌊e3.x / TILE_SIZE⌋
  let rightTile := ⌊(e3.x + e3.width - 1) / TILE_SIZE⌋
  let topTile := ⌊e3.y / TILE_SIZE⌋
  let bottomTile := ⌊(e3.y + e3.height - 1) / TILE_SIZE⌋
  (scanIndices topTile bottomTile leftTile rightTile).foldl (collideTile world) e3

/-! Specification-side definitions for the physics claim, written from
the words of the claim rather than from the source, to be compared with
updateEntityPosition. -/

/-- Spec: integrate gravity into vy, add vy to y and vx to x.  The tick
recomputes onGround from scratch (it is set only by a bottom-landing
resolution), so it starts false. -/
def integrateSpec (e : Entity) : Entity :=
  { e with vy := e.vy + GRAVITY
           y := e.y + (e.vy + GRAVITY)
           x := e.x + e.vx
           onGround := false }

/-- Spec: clamp x into [0, worldWidthPixels - width]. -/
def clampXSpec (e : Entity) : Entity :=
  { e with x := max 0 (min e.x (WORLD_WIDTH_PIXELS - e.width)) }

/-- Spec: resolve against one tile, by the precedence of the claim: a
falling entity whose bottom edge lies within the vertical span of the
tile snaps to the tile top and lands; a rising entity snaps below the
tile; otherwise horizontal motion snaps to the near side of the tile.
Applied only to in-grid, non-sky tiles whose box overlaps the entity. -/
def resolveSpec (world : World) (e : Entity) (yx : ℤ × ℤ) : Entity :=
  let y := yx.1
  let x := yx.2
  if 0 ≤ x ∧ x < (WORLD_WIDTH_TILES : ℤ) ∧ 0 ≤ y ∧ y < (world.length : ℤ) then
    match getTileI world y x with
    | none => e
    | some tile =>
      let tileTop := (y : ℚ) * TILE_SIZE
      let tileBottom := tileTop + TILE_SIZE
      let tileLeft := (x : ℚ) * TILE_SIZE
      let tileRight := tileLeft + TILE_SIZE
      if tile.type = TileType.sky then e
      else if e.x < tileRight ∧ tileLeft < e.x + e.width ∧
          e.y < tileBottom ∧ tileTop < e.y + e.height then
        if e.vy > 0 ∧ tileTop ≤ e.y + e.height ∧ e.y + e.height ≤ tileBottom then
          { e with y := tileTop - e.height, vy := 0, onGround := true }
        else if e.vy < 0 then
          { e with y := tileBottom, vy := 0 }
        else if e.vx > 0 then
          { e with x := tileLeft - e.width, vx := 0 }
        else if e.vx < 0 then
          { e with x := tileRight, vx := 0 }
        else e
      else e
  else e

/-- Spec-side full tick: integrate, clamp, then fold the per-tile
resolution over the scan rectangle of the clamped position (tile-index
rectangle of the AABB, floor on each edge with the source's inclusive
pixel convention x .. x+width-1), top-to-bottom then left-to-right. -/
def physicsTickSpec (e : Entity) (world : World) : Entity :=
  let e2 := clampXSpec (integrateSpec e)
  let scan := scanIndices ⌊e2.y / TILE_SIZE⌋ ⌊(e2.y + e2.height - 1) / TILE_SIZE⌋
                          ⌊e2.x / TILE_SIZE⌋ ⌊(e2.x + e2.width - 1) / TILE_SIZE⌋
  scan.foldl (resolveSpec world) e2

/-! ## Manual field actions (till / plant / harvest) -/

/-- Tile column targeted by a manual action: the column under the
horizontal center of the player. -/
def targetTileX (p : Entity) : ℤ := ⌊(p.x + p.width / 2) / TILE_SIZE⌋

/-- Tile row targeted by a manual action: the row at the feet of the
player. -/
def targetTileY (p : Entity) : ℤ := ⌊(p.y + p.height) / TILE_SIZE⌋

/-- handleTillSoil from the source: if the target indices pass the
(upper-bound only) guard, map over the whole grid turning the matching
grass/dirt tile into tilled soil.  The player is returned unchanged by
the source, so only the world is produced here. -/
def handleTillSoil (p : Entity) (w : World) : World :=
  if p.isInVehicle then w
  else if w = [] then w
  else
    let tileX := targetTileX p
    let tileY := targetTileY p
    if tileY < (WORLD_HEIGHT_TILES : ℤ) ∧ tileX < (WORLD_WIDTH_TILES : ℤ) then
      mapIdxFrom (fun y row =>
        mapIdxFrom (fun x tile =>
          if (x : ℤ) = tileX ∧ (y : ℤ) = tileY ∧
              (tile.type = TileType.grass ∨ tile.type = TileType.dirt) then
            { tile with type := TileType.tilled }
          else tile) 0 row) 0 w
    else w

/-- Outcome of a manual plant / harvest action: the new world, the new
player, and the status message shown (none when the source shows no
toast on that path). -/
structure ActionResult where
  world : World
  player : Entity
  status : Option String
deriving DecidableEq, Repr

/-- The grid update of handlePlantCrop: replace the target tile by a
planted tile carrying a fresh crop of the selected kind at stage SEED. -/
def plantAt (w : World) (tileY tileX : ℤ) (sel : CropType) (now : ℤ) : World :=
  mapIdxFrom (fun y row =>
    mapIdxFrom (fun x t =>
      if (x : ℤ) = tileX ∧ (y : ℤ) = tileY then
        { t with type := TileType.cropPlanted
                 crop := some { type := sel, stage := CROP_STAGE_SEED, plantedTime := now } }
      else t) 0 row) 0 w

/-- Status string "Wheat planted!" etc. -/
def plantedMsg (c : CropType) : String :=
  match c with
  | CropType.wheat => "Wheat planted!"
  | CropType.corn => "Corn planted!"
  | CropType.potato => "Potato planted!"

/-- Status string "No wheat seeds!" etc. -/
def noSeedsMsg (c : CropType) : String :=
  match c with
  | CropType.wheat => "No wheat seeds!"
  | CropType.corn => "No corn seeds!"
  | CropType.potato => "No potato seeds!"

/-- handlePlantCrop from the source.  now is the Date.now() timestamp of
the action.  The result is none exactly when the JavaScript would throw:
the index guard only checks the upper bounds, so a negative target index
reaches world[tileY][tileX] and dereferences undefined. -/
def handlePlantCrop (p : Entity) (sel : CropType) (now : ℤ) (w : World) :
    Option ActionResult :=
  if p.isInVehicle then some ⟨w, p, none⟩
  else if w = [] then some ⟨w, p, none⟩
  else
    let tileX := targetTileX p
    let tileY := targetTileY p
    if tileY < (WORLD_HEIGHT_TILES : ℤ) ∧ tileX < (WORLD_WIDTH_TILES : ℤ) then
      match getTileI w tileY tileX with
      | none => none
      | some tile =>
        if tile.type = TileType.tilled ∧ tile.crop = none then
          if seedCount sel p.inventory > 0 then
            some ⟨plantAt w tileY tileX sel now,
                  { p with inventory := decSeed sel p.inventory },
                  some (plantedMsg sel)⟩
          else
            some ⟨w, p, some (noSeedsMsg sel)⟩
        else if tile.crop ≠ none then
          some ⟨w, p, some "Already something here!"⟩
        else
          some ⟨w, p, some "Needs tilled soil!"⟩
    else some ⟨w, p, none⟩

/-- The grid update of handleHarvestCrop: replace the target tile by
bare tilled soil. -/
def harvestAt (w : World) (tileY tileX : ℤ) : World :=
  mapIdxFrom (fun y row =>
    mapIdxFrom (fun x t =>
      if (x : ℤ) = tileX ∧ (y : ℤ) = tileY then
        { t with type := TileType.tilled, crop := none }
      else t) 0 row) 0 w

/-- Status string "Harvested Wheat!" etc. -/
def harvestedMsg (c : CropType) : String :=
  match c with
  | CropType.wheat => "Harvested Wheat!"
  | CropType.corn => "Harvested Corn!"
  | CropType.potato => "Harvested Potato!"

/-- handleHarvestCrop from the source.  As with planting, none models
the TypeError thrown on a negative target index. -/
def handleHarvestCrop (p : Entity) (w : World) : Option ActionResult :=
  if p.isInVehicle then some ⟨w, p, none⟩
  else if w = [] then some ⟨w, p, none⟩
  else
    let tileX := targetTileX p
    let tileY := targetTileY p
    if tileY < (WORLD_HEIGHT_TILES : ℤ) ∧ tileX < (WORLD_WIDTH_TILES : ℤ) then
      match getTileI w tileY tileX with
      | none => none
      | some tile =>
        match tile.crop with
        | some c =>
          if tile.type = TileType.cropGrown ∧ c.stage = CROP_STAGE_MATURE then
            if cropCount c.type p.inventory < p.maxStorage then
              some ⟨harvestAt w tileY tileX,
                    { p with inventory := incCrop c.type p.inventory },
                    some (harvestedMsg c.type)⟩
            else
              some ⟨w, p, some "Storage full! Sell crops to make space."⟩
          else if c.stage ≠ CROP_STAGE_MATURE then
            some ⟨w, p, some "Crop not mature yet!"⟩
          else
            some ⟨w, p, some "Nothing to harvest here!"⟩
        | none =>
          some ⟨w, p, some "Nothing to harvest here!"⟩
    else some ⟨w, p, none⟩

/-! ## Automated vehicle actions -/

/-- The loop body of applyPlowAction, folded over the footprint offsets
i = 0, 1, ... < plow.width / TILE_SIZE.  none models the TypeError on a
negative plow row (the guard checks plowY only against the upper
bound). -/
def plowLoop (plowE : Entity) (plowY : ℤ) : List ℕ → World → Option World
  | [], w => some w
  | i :: rest, w =>
    let plowX := ⌊(plowE.x + (i : ℚ) * TILE_SIZE) / TILE_SIZE⌋
    if plowY < (WORLD_HEIGHT_TILES : ℤ) ∧ 0 ≤ plowX ∧ plowX < (WORLD_WIDTH_TILES : ℤ) then
      match getTileI w plowY plowX with
      | none => none
      | some tile =>
        if (tile.type = TileType.grass ∨ tile.type = TileType.dirt) ∧ tile.crop = none then
          plowLoop plowE plowY rest (setTile w plowY plowX { tile with type := TileType.tilled })
        else
          plowLoop plowE plowY rest w
    else plowLoop plowE plowY rest w

/-- applyPlowAction from the source: with a hitched plow, a moving
tractor and fuel left, till every grass/dirt tile without a crop in the
plow footprint. -/
def applyPlowAction (tr plowE : Entity) (w : World) : Option World :=
  if tr.equipment ≠ some EquipKind.plow ∨ tr.vx = 0 ∨ tr.fuel ≤ 0 then some w
  else if w = [] then some w
  else
    let plowY := ⌊(plowE.y + plowE.height) / TILE_SIZE⌋
    plowLoop plowE plowY (List.range (plowE.width / TILE_SIZE).ceil.toNat) w

/-- The loop body of applySeederAction: like the plow loop but planting
on tilled crop-free tiles, consuming one seed per planted tile out of
the snapshot of the player inventory taken when the action fired.  The
accumulator counts the seeds consumed so far (the JavaScript comparison
inventory - seedsConsumed > 0 is on plain numbers, hence the integer
cast). -/
def seederLoop (sd p : Entity) (sel : CropType) (now : ℤ) (seederY : ℤ) :
    List ℕ → World → ℕ → Option (World × ℕ)
  | [], w, consumed => some (w, consumed)
  | i :: rest, w, consumed =>
    let seederX := ⌊(sd.x + (i : ℚ) * TILE_SIZE) / TILE_SIZE⌋
    if seederY < (WORLD_HEIGHT_TILES : ℤ) ∧ 0 ≤ seederX ∧ seederX < (WORLD_WIDTH_TILES : ℤ) then
      match getTileI w seederY seederX with
      | none => none
      | some tile =>
        if tile.type = TileType.tilled ∧ tile.crop = none then
          if (seedCount sel p.inventory : ℤ) - (consumed : ℤ) > 0 then
            seederLoop sd p sel now seederY rest
              (setTile w seederY seederX
                { tile with type := TileType.cropPlanted
                            crop := some { type := sel, stage := CROP_STAGE_SEED,
                                           plantedTime := now } })
              (consumed + 1)
          else
            seederLoop sd p sel now seederY rest w consumed
        else
          seederLoop sd p sel now seederY rest w consumed
    else seederLoop sd p sel now seederY rest w consumed

/-- applySeederAction from the source (world part, plus the number of
seeds consumed, which the source then subtracts from the player
inventory). -/
def applySeederAction (tr sd p : Entity) (sel : CropType) (now : ℤ) (w : World) :
    Option (World × ℕ) :=
  if tr.equipment ≠ some EquipKind.seeder ∨ tr.vx = 0 ∨ tr.fuel ≤ 0 then some (w, 0)
  else if w = [] then some (w, 0)
  else
    let seederY := ⌊(sd.y + sd.height) / TILE_SIZE⌋
    seederLoop sd p sel now seederY (List.range (sd.width / TILE_SIZE).ceil.toNat) w 0

/-- The loop body of applyCombineAction: walk the header columns, and on
every mature grown crop either harvest it (when the inventory snapshot
plus the units already cut this pass leaves room under maxStorage) or
stop the whole pass (the source breaks out of the loop). -/
def combineLoop (p : Entity) (combineY : ℤ) :
    List ℤ → World → (CropType → ℕ) → Option (World × (CropType → ℕ))
  | [], w, harvested => some (w, harvested)
  | x :: rest, w, harvested =>
    if combineY < (WORLD_HEIGHT_TILES : ℤ) ∧ 0 ≤ x ∧ x < (WORLD_WIDTH_TILES : ℤ) then
      match getTileI w combineY x with
      | none => none
      | some tile =>
        match tile.crop with
        | some c =>
          if tile.type = TileType.cropGrown ∧ c.stage = CROP_STAGE_MATURE then
            if cropCount c.type p.inventory + harvested c.type < p.maxStorage then
              combineLoop p combineY rest
                (setTile w combineY x { tile with type := TileType.tilled, crop := none })
                (fun k => if k = c.type then harvested k + 1 else harvested k)
            else some (w, harvested)
          else combineLoop p combineY rest w harvested
        | none => combineLoop p combineY rest w harvested
    else combineLoop p combineY rest w harvested

/-- The exclusive integer range [lo, hi): the x values of the combine
header loop. -/
def intRangeLt (lo hi : ℤ) : List ℤ :=
  (List.range (hi - lo).toNat).map (fun i => lo + (i : ℤ))

/-- applyCombineAction from the source (world part plus the per-kind
units harvested this pass; the source then adds those units to the
player inventory). -/
def applyCombineAction (cb p : Entity) (w : World) : Option (World × (CropType → ℕ)) :=
  if cb.isInVehicle = false ∨ cb.vx = 0 ∨ cb.fuel ≤ 0 then some (w, fun _ => 0)
  else if w = [] then some (w, fun _ => 0)
  else
    let combineY := ⌊(cb.y + cb.height) / TILE_SIZE⌋
    let headerWidth := TILE_SIZE * 2
    let startX := if cb.facing = "right" then ⌊(cb.x + cb.width) / TILE_SIZE⌋
                  else ⌊(cb.x - headerWidth) / TILE_SIZE⌋
    let endX := if cb.facing = "right" then ⌊(cb.x + cb.width + headerWidth) / TILE_SIZE⌋
                else ⌊cb.x / TILE_SIZE⌋
    combineLoop p combineY (intRangeLt (min startX endX) (max startX endX)) w (fun _ => 0)

/-! ## Crop growth engine -/

/-- The per-tile step of updateCropGrowth: a planted tile with a crop
advances one stage once now - plantedTime reaches
GROWTH_TIME_PER_STAGE * (stage + 1); the tile type becomes CROP_GROWN
when the new stage reaches MATURE. -/
def growTile (now : ℤ) (t : Tile) : Tile :=
  match t.crop with
  | some c =>
    if t.type = TileType.cropPlanted then
      if now - c.plantedTime ≥ GROWTH_TIME_PER_STAGE * ((c.stage : ℤ) + 1) then
        { t with crop := some { c with stage := c.stage + 1 }
                 type := if c.stage + 1 ≥ CROP_STAGE_MATURE then TileType.cropGrown
                         else TileType.cropPlanted }
      else t
    else t
  | none => t

/-- updateCropGrowth from the source: the double index loop over
y < WORLD_HEIGHT_TILES, x < WORLD_WIDTH_TILES updates each cell in place
from that cell alone, so it is embedded as an index-guarded per-cell
map (worlds reached from generateWorld always have exactly those
dimensions). -/
def updateCropGrowth (now : ℤ) (w : World) : World :=
  if w = [] then w
  else
    mapIdxFrom (fun y row =>
      if y < WORLD_HEIGHT_TILES then
        mapIdxFrom (fun x t => if x < WORLD_WIDTH_TILES then growTile now t else t) 0 row
      else row) 0 w

/-! ## Vehicle movement and enter / exit -/

/-- The movement-relevant key states consumed per tick (keys[a],
keys[arrowleft], keys[d], keys[arrowright]). -/
structure Keys where
  keyA : Bool
  arrowLeft : Bool
  keyD : Bool
  arrowRight : Bool
deriving DecidableEq, Repr

/-- Any horizontal move key pressed (the isMovingKey test of the
source). -/
def isMovingKey (k : Keys) : Bool :=
  k.keyA || k.arrowLeft || k.keyD || k.arrowRight

/-- handleTractorMovement from the source: an unoccupied tractor gets
vx = 0; an occupied one out of fuel with a move key pressed gets vx = 0,
an out-of-fuel toast and unchanged fuel; otherwise a pressed direction
sets vx = +-speed, the facing, and consumes fuelConsumption of fuel
floored at zero.  The second component is the status toast. -/
def handleTractorMovement (tr : Entity) (k : Keys) : Entity × Option String :=
  if tr.isInVehicle = false then ({ tr with vx := 0 }, none)
  else if tr.fuel ≤ 0 ∧ isMovingKey k then
    ({ tr with vx := 0 }, some "Tractor out of fuel!")
  else if k.keyA ∨ k.arrowLeft then
    ({ tr with vx := -tr.speed, facing := "left",
               fuel := max 0 (tr.fuel - tr.fuelConsumption) }, none)
  else if k.keyD ∨ k.arrowRight then
    ({ tr with vx := tr.speed, facing := "right",
               fuel := max 0 (tr.fuel - tr.fuelConsumption) }, none)
  else ({ tr with vx := 0 }, none)

/-- Squared Euclidean distance between the position fields of two
entities.  The source compares Math.sqrt of this quantity against
minDistance and enterRange; the square root is strictly monotone on
nonnegative numbers, so comparing squares against squared bounds selects
exactly the same vehicle. -/
def distSq (a b : Entity) : ℚ :=
  (a.x - b.x) * (a.x - b.x) + (a.y - b.y) * (a.y - b.y)

/-- enterRange = 80 of the source, squared. -/
def enterRangeSq : ℚ := 80 * 80

/-- Result of the enter / exit interaction. -/
structure EnterExitResult where
  player : Entity
  tractor : Entity
  combine : Entity
  status : Option String
deriving DecidableEq, Repr

/-- Math.floor(WORLD_HEIGHT_TILES * 0.75) * TILE_SIZE: the ground
reference height the player is placed at when exiting a vehicle. -/
def groundLevelY : ℚ := (groundStartRow : ℚ) * TILE_SIZE

/-- handleEnterExitVehicle from the source.  Exiting: the occupied
vehicle (the tractor is checked first) releases the player at its
horizontal center on the ground reference row with zero velocity, and
both occupancy flags drop.  Entering: the nearest vehicle within
enterRange of the player is entered (the loop keeps a strict minimum,
so on a tie the tractor, listed first, wins); with no vehicle in range
a failure toast is shown and nothing changes. -/
def handleEnterExitVehicle (p tr cb : Entity) : EnterExitResult :=
  if p.isInVehicle then
    if tr.isInVehicle then
      { player := { p with isInVehicle := false
                           x := tr.x + tr.width / 2 - p.width / 2
                           y := groundLevelY - p.height
                           vx := 0, vy := 0, onGround := false }
        tractor := { tr with isInVehicle := false }
        combine := cb
        status := some "Exited Tractor" }
    else if cb.isInVehicle then
      { player := { p with isInVehicle := false
                           x := cb.x + cb.width / 2 - p.width / 2
                           y := groundLevelY - p.height
                           vx := 0, vy := 0, onGround := false }
        tractor := tr
        combine := { cb with isInVehicle := false }
        status := some "Exited Combine harvester" }
    else
      { player := p, tractor := tr, combine := cb, status := none }
  else
    let dT := distSq p tr
    let dC := distSq p cb
    if dC < enterRangeSq ∧ (¬ dT < enterRangeSq ∨ dC < dT) then
      { player := { p with isInVehicle := true
                           x := cb.x + cb.width / 2
                           y := cb.y + cb.height / 2 }
        tractor := tr
        combine := { cb with isInVehicle := true }
        status := some "Entered Combine harvester" }
    else if dT < enterRangeSq then
      { player := { p with isInVehicle := true
                           x := tr.x + tr.width / 2
                           y := tr.y + tr.height / 2 }
        tractor := { tr with isInVehicle := true }
        combine := cb
        status := some "Entered Tractor" }
    else
      { player := p, tractor := tr, combine := cb,
        status := some "No vehicle close enough to enter!" }

/-! ## The world-mutating operations as one step type -/

/-- One world-mutating operation of the simulation, with the entity and
input parameters it reads.  Operations whose embedding returns none
(the JavaScript would throw before the world state is replaced) leave
the world unchanged. -/
inductive Op where
  | till (p : Entity)
  | plant (p : Entity) (sel : CropType) (now : ℤ)
  | harvest (p : Entity)
  | plowAction (tr plowE : Entity)
  | seederAction (tr sd p : Entity) (sel : CropType) (now : ℤ)
  | combineAction (cb p : Entity)
  | growth (now : ℤ)

/-- The world transformation of one operation. -/
def applyOpW (op : Op) (w : World) : World :=
  match op with
  | Op.till p => handleTillSoil p w
  | Op.plant p sel now =>
    match handlePlantCrop p sel now w with
    | some r => r.world
    | none => w
  | Op.harvest p =>
    match handleHarvestCrop p w with
    | some r => r.world
    | none => w
  | Op.plowAction tr plowE =>
    match applyPlowAction tr plowE w with
    | some w2 => w2
    | none => w
  | Op.seederAction tr sd p sel now =>
    match applySeederAction tr sd p sel now w with
    | some r => r.1
    | none => w
  | Op.combineAction cb p =>
    match applyCombineAction cb p w with
    | some r => r.1
    | none => w
  | Op.growth now => updateCropGrowth now w

/-- A whole session: the operations applied in order, starting from the
generated world. -/
def applyOps (ops : List Op) (w : World) : World :=
  ops.foldl (fun w op => applyOpW op w) w

/-! ## Tile well-formedness -/

/-- The stated invariant: crop is non-null only on CropPlanted /
CropGrown tiles, and a CropGrown tile carries a mature crop. -/
def TileWF (t : Tile) : Prop :=
  ∀ c, t.crop = some c →
    (t.type = TileType.cropPlanted ∨ t.type = TileType.cropGrown) ∧
    (t.type = TileType.cropGrown → c.stage = CROP_STAGE_MATURE)

/-- The inductive strengthening of TileWF actually preserved by the
operations: a planted crop is strictly below MATURE, a grown crop is
exactly MATURE. -/
def TileWFs (t : Tile) : Prop :=
  ∀ c, t.crop = some c →
    (t.type = TileType.cropPlanted ∧ c.stage < CROP_STAGE_MATURE) ∨
    (t.type = TileType.cropGrown ∧ c.stage = CROP_STAGE_MATURE)

/-- Every tile of the world satisfies P. -/
def WorldAll (P : Tile → Prop) (w : World) : Prop :=
  ∀ row ∈ w, ∀ t ∈ row, P t

/-! ## Claim C9: continuity and range of the lighting model -/

lemma ambient_range (t : ℚ) :
    1/10 ≤ getAmbientLightFactor t ∧ getAmbientLightFactor t ≤ 1 := by
  unfold getAmbientLightFactor
  split_ifs with h1 h2 h3 h4 h5
  · obtain ⟨a, b⟩ := h1
    constructor <;> nlinarith
  · obtain ⟨a, b⟩ := h2
    constructor <;> nlinarith
  · norm_num
  · obtain ⟨a, b⟩ := h4
    constructor <;> nlinarith
  · obtain ⟨a, b⟩ := h5
    constructor <;> nlinarith
  · norm_num

lemma ambient_eq_night (t : ℚ) (h1 : 0 ≤ t) (h2 : t < 5) :
    getAmbientLightFactor t = ambientNight t := by
  unfold getAmbientLightFactor ambientNight
  rw [if_neg, if_neg, if_neg, if_neg, if_neg]
  all_goals rintro ⟨ha, hb⟩
  all_goals linarith

lemma ambient_eq_dawn (t : ℚ) (h1 : 5 ≤ t) (h2 : t < 7) :
    getAmbientLightFactor t = ambientDawn t := by
  unfold getAmbientLightFactor ambientDawn
  rw [if_pos ⟨h1, h2⟩]

lemma ambient_eq_morning (t : ℚ) (h1 : 7 ≤ t) (h2 : t < 9) :
    getAmbientLightFactor t = ambientMorning t := by
  unfold getAmbientLightFactor ambientMorning
  rw [if_neg, if_pos ⟨h1, h2⟩]
  rintro ⟨ha, hb⟩
  linarith

lemma ambient_eq_day (t : ℚ) (h1 : 9 ≤ t) (h2 : t < 17) :
    getAmbientLightFactor t = ambientDay t := by
  unfold getAmbientLightFactor ambientDay
  rw [if_neg, if_neg, if_pos ⟨h1, h2⟩]
  all_goals rintro ⟨ha, hb⟩
  all_goals linarith

lemma ambient_eq_evening (t : ℚ) (h1 : 17 ≤ t) (h2 : t < 19) :
    getAmbientLightFactor t = ambientEvening t := by
  unfold getAmbientLightFactor ambientEvening
  rw [if_neg, if_neg, if_neg, if_pos ⟨h1, h2⟩]
  all_goals rintro ⟨ha, hb⟩
  all_goals linarith

lemma ambient_eq_dusk (t : ℚ) (h1 : 19 ≤ t) (h2 : t < 21) :
    getAmbientLightFactor t = ambientDusk t := by
  unfold getAmbientLightFactor ambientDusk
  rw [if_neg, if_neg, if_neg, if_neg, if_pos ⟨h1, h2⟩]
  all_goals rintro ⟨ha, hb⟩
  all_goals linarith

lemma ambient_eq_night2 (t : ℚ) (h1 : 21 ≤ t) (h2 : t < 24) :
    getAmbientLightFactor t = ambientNight t := by
  unfold getAmbientLightFactor ambientNight
  rw [if_neg, if_neg, if_neg, if_neg, if_neg]
  all_goals rintro ⟨ha, hb⟩
  all_goals linarith

lemma sky_eq_deepNight (t : ℚ) (c : SkyColors) (h1 : 0 ≤ t) (h2 : t < 5) :
    getSkyColor t c = skyDeepNight t c := by
  unfold getSkyColor skyDeepNight
  rw [if_pos ⟨h1, h2⟩]

lemma sky_eq_lateNight (t : ℚ) (c : SkyColors) (h1 : 5 ≤ t) (h2 : t < 6) :
    getSkyColor t c = skyLateNight t c := by
  unfold getSkyColor skyLateNight
  rw [if_neg, if_pos ⟨h1, h2⟩]
  rintro ⟨ha, hb⟩
  linarith

lemma sky_eq_sunrise (t : ℚ) (c : SkyColors) (h1 : 6 ≤ t) (h2 : t < 7) :
    getSkyColor t c = skySunrise t c := by
  unfold getSkyColor skySunrise
  rw [if_neg, if_neg, if_pos ⟨h1, h2⟩]
  all_goals rintro ⟨ha, hb⟩
  all_goals linarith

lemma sky_eq_morningTransition (t : ℚ) (c : SkyColors) (h1 : 7 ≤ t) (h2 : t < 9) :
    getSkyColor t c = skyMorningTransition t c := by
  unfold getSkyColor skyMorningTransition
  rw [if_neg, if_neg, if_neg, if_pos ⟨h1, h2⟩]
  all_goals rintro ⟨ha, hb⟩
  all_goals linarith

lemma sky_eq_midday (t : ℚ) (c : SkyColors) (h1 : 9 ≤ t) (h2 : t < 16) :
    getSkyColor t c = skyMidday t c := by
  unfold getSkyColor skyMidday
  rw [if_neg, if_neg, if_neg, if_neg, if_pos ⟨h1, h2⟩]
  all_goals rintro ⟨ha, hb⟩
  all_goals linarith

lemma sky_eq_afternoon (t : ℚ) (c : SkyColors) (h1 : 16 ≤ t) (h2 : t < 18) :
    getSkyColor t c = skyAfternoon t c := by
  unfold getSkyColor skyAfternoon
  rw [if_neg, if_neg, if_neg, if_neg, if_neg, if_pos ⟨h1, h2⟩]
  all_goals rintro ⟨ha, hb⟩
  all_goals linarith

lemma sky_eq_sunset (t : ℚ) (c : SkyColors) (h1 : 18 ≤ t) (h2 : t < 19) :
    getSkyColor t c = skySunset t c := by
  unfold getSkyColor skySunset
  rw [if_neg, if_neg, if_neg, if_neg, if_neg, if_neg, if_pos ⟨h1, h2⟩]
  all_goals rintro ⟨ha, hb⟩
  all_goals linarith

lemma sky_eq_dusk (t : ℚ) (c : SkyColors) (h1 : 19 ≤ t) (h2 : t < 21) :
    getSkyColor t c = skyDusk t c := by
  unfold getSkyColor skyDusk
  rw [if_neg, if_neg, if_neg, if_neg, if_neg, if_neg, if_neg, if_pos ⟨h1, h2⟩]
  all_goals rintro ⟨ha, hb⟩
  all_goals linarith

lemma sky_eq_deepNight2 (t : ℚ) (c : SkyColors) (h1 : 21 ≤ t) (h2 : t < 24) :
    getSkyColor t c = skyDeepNight t c := by
  unfold getSkyColor skyDeepNight
  rw [if_neg, if_neg, if_neg, if_neg, if_neg, if_neg, if_neg, if_neg]
  all_goals rintro ⟨ha, hb⟩
  all_goals linarith

/-- C9: for every time in [0,24), getAmbientLightFactor lies in
[0.1, 1.0] and attains 1.0 at midday; getAmbientLightFactor and
getSkyColor agree with their named linear pieces on the pieces'
intervals, and at every breakpoint boundary the piece ending there,
evaluated at the boundary (its limit from below), equals the function
value at the boundary — both functions are continuous across every
breakpoint, including the midnight wrap. -/
theorem c9_lighting_continuous :
    (∀ t : ℚ, 0 ≤ t → t < 24 →
      1/10 ≤ getAmbientLightFactor t ∧ getAmbientLightFactor t ≤ 1) ∧
    getAmbientLightFactor 12 = 1 ∧
    (∀ t : ℚ, 0 ≤ t → t < 5 → getAmbientLightFactor t = ambientNight t) ∧
    (∀ t : ℚ, 5 ≤ t → t < 7 → getAmbientLightFactor t = ambientDawn t) ∧
    (∀ t : ℚ, 7 ≤ t → t < 9 → getAmbientLightFactor t = ambientMorning t) ∧
    (∀ t : ℚ, 9 ≤ t → t < 17 → getAmbientLightFactor t = ambientDay t) ∧
    (∀ t : ℚ, 17 ≤ t → t < 19 → getAmbientLightFactor t = ambientEvening t) ∧
    (∀ t : ℚ, 19 ≤ t → t < 21 → getAmbientLightFactor t = ambientDusk t) ∧
    (∀ t : ℚ, 21 ≤ t → t < 24 → getAmbientLightFactor t = ambientNight t) ∧
    (ambientNight 5 = getAmbientLightFactor 5 ∧
     ambientDawn 7 = getAmbientLightFactor 7 ∧
     ambientMorning 9 = getAmbientLightFactor 9 ∧
     ambientDay 17 = getAmbientLightFactor 17 ∧
     ambientEvening 19 = getAmbientLightFactor 19 ∧
     ambientDusk 21 = getAmbientLightFactor 21 ∧
     ambientNight 24 = getAmbientLightFactor 0) ∧
    (∀ t : ℚ, 0 ≤ t → t < 5 → getSkyColor t defaultSkyColors = skyDeepNight t defaultSkyColors) ∧
    (∀ t : ℚ, 5 ≤ t → t < 6 → getSkyColor t defaultSkyColors = skyLateNight t defaultSkyColors) ∧
    (∀ t : ℚ, 6 ≤ t → t < 7 → getSkyColor t defaultSkyColors = skySunrise t defaultSkyColors) ∧
    (∀ t : ℚ, 7 ≤ t → t < 9 →
      getSkyColor t defaultSkyColors = skyMorningTransition t defaultSkyColors) ∧
    (∀ t : ℚ, 9 ≤ t → t < 16 → getSkyColor t defaultSkyColors = skyMidday t defaultSkyColors) ∧
    (∀ t : ℚ, 16 ≤ t → t < 18 → getSkyColor t defaultSkyColors = skyAfternoon t defaultSkyColors) ∧
    (∀ t : ℚ, 18 ≤ t → t < 19 → getSkyColor t defaultSkyColors = skySunset t defaultSkyColors) ∧
    (∀ t : ℚ, 19 ≤ t → t < 21 → getSkyColor t defaultSkyColors = skyDusk t defaultSkyColors) ∧
    (∀ t : ℚ, 21 ≤ t → t < 24 → getSkyColor t defaultSkyColors = skyDeepNight t defaultSkyColors) ∧
    (skyDeepNight 5 defaultSkyColors = getSkyColor 5 defaultSkyColors ∧
     skyLateNight 6 defaultSkyColors = getSkyColor 6 defaultSkyColors ∧
     skySunrise 7 defaultSkyColors = getSkyColor 7 defaultSkyColors ∧
     skyMorningTransition 9 defaultSkyColors = getSkyColor 9 defaultSkyColors ∧
     skyMidday 16 defaultSkyColors = getSkyColor 16 defaultSkyColors ∧
     skyAfternoon 18 defaultSkyColors = getSkyColor 18 defaultSkyColors ∧
     skySunset 19 defaultSkyColors = getSkyColor 19 defaultSkyColors ∧
     skyDusk 21 defaultSkyColors = getSkyColor 21 defaultSkyColors ∧
     skyDeepNight 24 defaultSkyColors = getSkyColor 0 defaultSkyColors) := by
  refine ⟨fun t _ _ => ambient_range t, by norm_num [getAmbientLightFactor],
    ambient_eq_night, ambient_eq_dawn, ambient_eq_morning, ambient_eq_day,
    ambient_eq_evening, ambient_eq_dusk, ambient_eq_night2,
    ⟨?_, ?_, ?_, ?_, ?_, ?_, ?_⟩,
    fun t h1 h2 => sky_eq_deepNight t _ h1 h2,
    fun t h1 h2 => sky_eq_lateNight t _ h1 h2,
    fun t h1 h2 => sky_eq_sunrise t _ h1 h2,
    fun t h1 h2 => sky_eq_morningTransition t _ h1 h2,
    fun t h1 h2 => sky_eq_midday t _ h1 h2,
    fun t h1 h2 => sky_eq_afternoon t _ h1 h2,
    fun t h1 h2 => sky_eq_sunset t _ h1 h2,
    fun t h1 h2 => sky_eq_dusk t _ h1 h2,
    fun t h1 h2 => sky_eq_deepNight2 t _ h1 h2,
    ⟨?_, ?_, ?_, ?_, ?_, ?_, ?_, ?_, ?_⟩⟩
  all_goals
    norm_num [ambientNight, ambientDawn, ambientMorning, ambientDay,
      ambientEvening, ambientDusk, getAmbientLightFactor,
      skyDeepNight, skyLateNight, skySunrise, skyMorningTransition,
      skyMidday, skyAfternoon, skySunset, skyDusk, getSkyColor,
      lerpColor, jsRound, defaultSkyColors, DEEP_NIGHT_SKY_COLOR,
      DAWN_SKY_COLOR, SUNRISE_TINT_COLOR, MORNING_SKY_COLOR,
      AFTERNOON_SKY_COLOR, SUNSET_TINT_COLOR]

/-- Witness for C9: the range statement discharged at the concrete
midday time 12. -/
theorem c9_lighting_continuous_witness :
    1/10 ≤ getAmbientLightFactor 12 ∧ getAmbientLightFactor 12 ≤ 1 :=
  c9_lighting_continuous.1 12 (by norm_num) (by norm_num)

/-! ## Claim C2: the crop-growth tick -/

/-- C2 (amended): for a tile with a crop and type CropPlanted, one
growth tick at time now advances the stage by exactly one iff
now - plantedTime has reached GROWTH_TIME_PER_STAGE * (stage + 1)
(cumulative intervals, at most one stage per tick), leaves the tile
unchanged otherwise, sets the type to CropGrown exactly when the new
stage is at least MATURE (which coincides with equality for the
reachable stages SEED and YOUNG), and never decreases the stage. -/
theorem c2_crop_growth_tick (t : Tile) (c : Crop) (now : ℤ)
    (hc : t.crop = some c) (ht : t.type = TileType.cropPlanted) :
    (GROWTH_TIME_PER_STAGE * ((c.stage : ℤ) + 1) ≤ now - c.plantedTime →
      (growTile now t).crop = some { c with stage := c.stage + 1 }) ∧
    (¬ GROWTH_TIME_PER_STAGE * ((c.stage : ℤ) + 1) ≤ now - c.plantedTime →
      growTile now t = t) ∧
    ((growTile now t).type = TileType.cropGrown ↔
      GROWTH_TIME_PER_STAGE * ((c.stage : ℤ) + 1) ≤ now - c.plantedTime ∧
      CROP_STAGE_MATURE ≤ c.stage + 1) ∧
    (∀ c2, (growTile now t).crop = some c2 →
      c.stage ≤ c2.stage ∧ c2.stage ≤ c.stage + 1) := by
  have hg : growTile now t =
      if GROWTH_TIME_PER_STAGE * ((c.stage : ℤ) + 1) ≤ now - c.plantedTime then
        { t with crop := some { c with stage := c.stage + 1 }
                 type := if CROP_STAGE_MATURE ≤ c.stage + 1 then TileType.cropGrown
                         else TileType.cropPlanted }
      else t := by
    unfold growTile
    rw [hc, ht]
    simp [ge_iff_le]
  rw [hg]
  by_cases hD : GROWTH_TIME_PER_STAGE * ((c.stage : ℤ) + 1) ≤ now - c.plantedTime
  · rw [if_pos hD]
    by_cases hM : CROP_STAGE_MATURE ≤ c.stage + 1
    · rw [if_pos hM]
      refine ⟨fun _ => rfl, fun h => absurd hD h, by simp [hD, hM], ?_⟩
      rintro c2 hc2
      simp only [Option.some.injEq] at hc2
      subst hc2
      refine ⟨Nat.le_succ _, le_refl _⟩
    · rw [if_neg hM]
      refine ⟨fun _ => rfl, fun h => absurd hD h, by simp [hD, hM], ?_⟩
      rintro c2 hc2
      simp only [Option.some.injEq] at hc2
      subst hc2
      refine ⟨Nat.le_succ _, le_refl _⟩
  · rw [if_neg hD]
    refine ⟨fun h => absurd h hD, fun _ => rfl, by simp [ht, hD], ?_⟩
    rintro c2 hc2
    rw [hc] at hc2
    simp only [Option.some.injEq] at hc2
    subst hc2
    omega

/-- A freshly planted wheat tile. -/
def c2SeedTile : Tile :=
  { type := TileType.cropPlanted
    crop := some { type := CropType.wheat, stage := CROP_STAGE_SEED, plantedTime := 0 } }

/-- Witness for C2: at 4000 ms after planting (before the 5000 ms
threshold) a tick leaves the freshly planted tile unchanged. -/
theorem c2_crop_growth_tick_witness : growTile 4000 c2SeedTile = c2SeedTile :=
  (c2_crop_growth_tick c2SeedTile
    { type := CropType.wheat, stage := CROP_STAGE_SEED, plantedTime := 0 }
    4000 rfl rfl).2.1 (by decide)

/-- A CropPlanted tile whose crop is already at stage MATURE: a
type-correct input outside the reachable states. -/
def c2MatureTile : Tile :=
  { type := TileType.cropPlanted
    crop := some { type := CropType.wheat, stage := CROP_STAGE_MATURE, plantedTime := 0 } }

/-- Counterexample to C2 as stated: ticking a CropPlanted tile whose
stage is already MATURE at now = 15000 sets the type to CropGrown even
though the new stage (3) is not MATURE, against the claim that the type
becomes CropGrown exactly when the new stage is Mature. -/
theorem c2_crop_growth_tick_counterexample :
    (growTile 15000 c2MatureTile).type = TileType.cropGrown ∧
    ∀ c2, (growTile 15000 c2MatureTile).crop = some c2 →
      c2.stage ≠ CROP_STAGE_MATURE := by
  constructor
  · decide
  · intro c2 hc2
    simp only [growTile, c2MatureTile, CROP_STAGE_MATURE, GROWTH_TIME_PER_STAGE] at hc2
    norm_num at hc2
    subst hc2
    decide

/-! ## Claim C7: tractor fuel gating -/

/-- C7: an occupied tractor with no fuel and a horizontal move command
keeps fuel unchanged, gets vx = 0 and an out-of-fuel status; an occupied
tractor with fuel and a move command consumes fuelConsumption of fuel,
floored at zero, so fuel never becomes negative. -/
theorem c7_tractor_fuel (tr : Entity) (k : Keys) (hin : tr.isInVehicle = true) :
    (tr.fuel = 0 → isMovingKey k = true →
      (handleTractorMovement tr k).1.vx = 0 ∧
      (handleTractorMovement tr k).2 = some "Tractor out of fuel!" ∧
      (handleTractorMovement tr k).1.fuel = tr.fuel) ∧
    (0 < tr.fuel → isMovingKey k = true →
      (handleTractorMovement tr k).1.fuel = max 0 (tr.fuel - tr.fuelConsumption) ∧
      0 ≤ (handleTractorMovement tr k).1.fuel) := by
  unfold handleTractorMovement
  rw [hin]
  constructor
  · intro hf hk
    rw [if_neg (by simp), if_pos ⟨le_of_eq hf, hk⟩]
    exact ⟨rfl, rfl, rfl⟩
  · intro hf hk
    rw [if_neg (by simp), if_neg (by rintro ⟨h1, -⟩; linarith)]
    rcases k with ⟨a, al, d, ar⟩
    simp only [isMovingKey, Bool.or_eq_true] at hk
    by_cases hl : a = true ∨ al = true
    · rw [if_pos hl]
      exact ⟨rfl, le_max_left 0 _⟩
    · have hr : d = true ∨ ar = true := by tauto
      rw [if_neg hl, if_pos hr]
      exact ⟨rfl, le_max_left 0 _⟩

/-- Entity with every field at a neutral default; concrete witness
entities are built from it. -/
def defaultEntity : Entity :=
  { x := 0, y := 0, width := 20, height := 20, vx := 0, vy := 0,
    onGround := false, speed := 3, jumpPower := 10, fuel := 0, maxFuel := 100,
    fuelConsumption := 1/20, facing := "right", isInVehicle := false,
    isHitched := false, equipment := none,
    inventory := { wheatSeeds := 50, cornSeeds := 20, potatoSeeds := 20,
                   wheat := 0, corn := 0, potato := 0 },
    money := 100, maxStorage := 100, siloBuilt := false, upgradeLevel := 0,
    type := "player" }

/-- An occupied tractor with full fuel. -/
def c7Tractor : Entity :=
  { defaultEntity with isInVehicle := true, fuel := 100, speed := 5/2,
                       type := "tractor" }

/-- Witness for C7: the fueled branch discharged on a concrete occupied
tractor with the left key held. -/
theorem c7_tractor_fuel_witness :
    (handleTractorMovement c7Tractor ⟨true, false, false, false⟩).1.fuel =
      max 0 (c7Tractor.fuel - c7Tractor.fuelConsumption) ∧
    0 ≤ (handleTractorMovement c7Tractor ⟨true, false, false, false⟩).1.fuel :=
  (c7_tractor_fuel c7Tractor ⟨true, false, false, false⟩ rfl).2
    (by norm_num [c7Tractor, defaultEntity]) rfl

/-! ## Claim C8: enter / exit interaction -/

/-- C8: exiting places the player at the horizontal center of the
occupied vehicle, on the fixed ground reference row, with zero velocity,
and clears both occupancy flags; entering with no vehicle strictly
within enterRange changes nothing and reports failure; otherwise the
vehicle nearest by Euclidean distance within enterRange is entered (the
squared-distance comparisons select the same vehicle as the square
roots the source compares, since the square root is strictly monotone
on nonnegative inputs). -/
theorem c8_enter_exit (p tr cb : Entity) :
    (p.isInVehicle = true → tr.isInVehicle = true →
      (handleEnterExitVehicle p tr cb).player.x = tr.x + tr.width / 2 - p.width / 2 ∧
      (handleEnterExitVehicle p tr cb).player.y = groundLevelY - p.height ∧
      (handleEnterExitVehicle p tr cb).player.vx = 0 ∧
      (handleEnterExitVehicle p tr cb).player.vy = 0 ∧
      (handleEnterExitVehicle p tr cb).player.isInVehicle = false ∧
      (handleEnterExitVehicle p tr cb).tractor.isInVehicle = false) ∧
    (p.isInVehicle = true → tr.isInVehicle = false → cb.isInVehicle = true →
      (handleEnterExitVehicle p tr cb).player.x = cb.x + cb.width / 2 - p.width / 2 ∧
      (handleEnterExitVehicle p tr cb).player.y = groundLevelY - p.height ∧
      (handleEnterExitVehicle p tr cb).player.vx = 0 ∧
      (handleEnterExitVehicle p tr cb).player.vy = 0 ∧
      (handleEnterExitVehicle p tr cb).player.isInVehicle = false ∧
      (handleEnterExitVehicle p tr cb).combine.isInVehicle = false) ∧
    (p.isInVehicle = false → ¬ distSq p tr < enterRangeSq → ¬ distSq p cb < enterRangeSq →
      handleEnterExitVehicle p tr cb =
        ⟨p, tr, cb, some "No vehicle close enough to enter!"⟩) ∧
    (p.isInVehicle = false → distSq p tr < enterRangeSq → distSq p tr ≤ distSq p cb →
      (handleEnterExitVehicle p tr cb).tractor.isInVehicle = true ∧
      (handleEnterExitVehicle p tr cb).player.isInVehicle = true ∧
      (handleEnterExitVehicle p tr cb).combine = cb) ∧
    (p.isInVehicle = false → distSq p cb < enterRangeSq → distSq p cb < distSq p tr →
      (handleEnterExitVehicle p tr cb).combine.isInVehicle = true ∧
      (handleEnterExitVehicle p tr cb).player.isInVehicle = true ∧
      (handleEnterExitVehicle p tr cb).tractor = tr) := by
  refine ⟨?_, ?_, ?_, ?_, ?_⟩
  · intro hp htr
    unfold handleEnterExitVehicle
    rw [hp, if_pos rfl, htr, if_pos rfl]
    exact ⟨rfl, rfl, rfl, rfl, rfl, rfl⟩
  · intro hp htr hcb
    unfold handleEnterExitVehicle
    rw [hp, if_pos rfl, htr, if_neg (by simp), hcb, if_pos rfl]
    exact ⟨rfl, rfl, rfl, rfl, rfl, rfl⟩
  · intro hp htr hcb
    unfold handleEnterExitVehicle
    rw [hp, if_neg (by simp), if_neg (by rintro ⟨h1, -⟩; exact hcb h1),
        if_neg htr]
  · intro hp hT hTC
    unfold handleEnterExitVehicle
    rw [hp, if_neg (by simp),
        if_neg (by rintro ⟨-, (h | h)⟩; exacts [h hT, absurd hTC (not_le.mpr h)]),
        if_pos hT]
    exact ⟨rfl, rfl, rfl⟩
  · intro hp hC hCT
    unfold handleEnterExitVehicle
    rw [hp, if_neg (by simp), if_pos ⟨hC, Or.inr hCT⟩]
    exact ⟨rfl, rfl, rfl⟩

/-- An idle tractor 30 pixels from the origin. -/
def c8Tractor : Entity :=
  { defaultEntity with x := 30, width := 80, height := 50, type := "tractor" }

/-- An idle combine 500 pixels away. -/
def c8Combine : Entity :=
  { defaultEntity with x := 500, width := 100, height := 60,
                       type := "combine harvester" }

/-- Witness for C8: the player at the origin enters the tractor, the
nearer of the two vehicles and the only one within enterRange. -/
theorem c8_enter_exit_witness :
    (handleEnterExitVehicle defaultEntity c8Tractor c8Combine).tractor.isInVehicle = true ∧
    (handleEnterExitVehicle defaultEntity c8Tractor c8Combine).player.isInVehicle = true ∧
    (handleEnterExitVehicle defaultEntity c8Tractor c8Combine).combine = c8Combine :=
  (c8_enter_exit defaultEntity c8Tractor c8Combine).2.2.2.1 rfl
    (by norm_num [distSq, enterRangeSq, defaultEntity, c8Tractor])
    (by norm_num [distSq, defaultEntity, c8Tractor, c8Combine])

/-! ## Claim C10: frame conditions of the physics resolver -/

/-- a agrees with b on every entity field other than x, y, vx, vy and
onGround. -/
def PhysFrame (a b : Entity) : Prop :=
  a.width = b.width ∧ a.height = b.height ∧ a.speed = b.speed ∧
  a.jumpPower = b.jumpPower ∧ a.fuel = b.fuel ∧ a.maxFuel = b.maxFuel ∧
  a.fuelConsumption = b.fuelConsumption ∧ a.facing = b.facing ∧
  a.isInVehicle = b.isInVehicle ∧ a.isHitched = b.isHitched ∧
  a.equipment = b.equipment ∧ a.inventory = b.inventory ∧
  a.money = b.money ∧ a.maxStorage = b.maxStorage ∧
  a.siloBuilt = b.siloBuilt ∧ a.upgradeLevel = b.upgradeLevel ∧
  a.type = b.type

lemma physFrame_refl (a : Entity) : PhysFrame a a :=
  ⟨rfl, rfl, rfl, rfl, rfl, rfl, rfl, rfl, rfl, rfl, rfl, rfl, rfl, rfl, rfl, rfl, rfl⟩

lemma physFrame_trans {a b c : Entity} (h1 : PhysFrame a b) (h2 : PhysFrame b c) :
    PhysFrame a c := by
  unfold PhysFrame at *
  obtain ⟨a1, a2, a3, a4, a5, a6, a7, a8, a9, a10, a11, a12, a13, a14, a15, a16, a17⟩ := h1
  obtain ⟨b1, b2, b3, b4, b5, b6, b7, b8, b9, b10, b11, b12, b13, b14, b15, b16, b17⟩ := h2
  exact ⟨a1.trans b1, a2.trans b2, a3.trans b3, a4.trans b4, a5.trans b5,
    a6.trans b6, a7.trans b7, a8.trans b8, a9.trans b9, a10.trans b10,
    a11.trans b11, a12.trans b12, a13.trans b13, a14.trans b14, a15.trans b15,
    a16.trans b16, a17.trans b17⟩

lemma collideTile_frame (w : World) (e : Entity) (yx : ℤ × ℤ) :
    PhysFrame (collideTile w e yx) e := by
  unfold collideTile
  dsimp only
  repeat' split
  all_goals exact physFrame_refl e

lemma foldl_collide_frame (w : World) :
    ∀ (l : List (ℤ × ℤ)) (e : Entity), PhysFrame (l.foldl (collideTile w) e) e := by
  intro l
  induction l with
  | nil => exact fun e => physFrame_refl e
  | cons a as ih =>
    intro e
    exact physFrame_trans (ih (collideTile w e a)) (collideTile_frame w e a)

/-- C10: one physics tick changes at most x, y, vx, vy and onGround;
every other field of the returned entity equals its input value. -/
theorem c10_physics_frame (e : Entity) (w : World) :
    PhysFrame (updateEntityPosition e w) e := by
  unfold updateEntityPosition
  refine physFrame_trans (foldl_collide_frame w _ _) ?_
  dsimp only
  repeat' split
  all_goals exact physFrame_refl e

/-! ## Claim C3: the physics tick refines its specification -/

/-- The two sequential wall-clamp conditionals of updateEntityPosition,
as one function of the post-integration entity. -/
def clampIfs (f : Entity) : Entity :=
  let e2 := if f.x < 0 then { f with x := 0 } else f
  if e2.x + e2.width > WORLD_WIDTH_PIXELS then { e2 with x := WORLD_WIDTH_PIXELS - e2.width }
  else e2

lemma clampIfs_eq_spec (f : Entity) (hw : f.width ≤ WORLD_WIDTH_PIXELS) :
    clampIfs f = clampXSpec f := by
  unfold clampIfs clampXSpec
  dsimp only
  by_cases h1 : f.x < 0
  · rw [if_pos h1]
    dsimp only
    rw [if_neg (by rw [not_lt]; linarith)]
    exact congrArg (fun v => { f with x := v })
      (max_eq_left (le_trans (min_le_left _ _) (le_of_lt h1))).symm
  · rw [if_neg h1]
    rw [not_lt] at h1
    by_cases h2 : f.x + f.width > WORLD_WIDTH_PIXELS
    · rw [if_pos h2]
      have hx : max 0 (min f.x (WORLD_WIDTH_PIXELS - f.width)) =
          WORLD_WIDTH_PIXELS - f.width := by
        rw [min_eq_right (by linarith), max_eq_right (by linarith)]
      exact congrArg (fun v => { f with x := v }) hx.symm
    · rw [if_neg h2]
      rw [not_lt] at h2
      have hx : max 0 (min f.x (WORLD_WIDTH_PIXELS - f.width)) = f.x := by
        rw [min_eq_left (by linarith), max_eq_right h1]
      rw [hx]

lemma collide_eq_resolve (w : World) (e : Entity) (yx : ℤ × ℤ) :
    collideTile w e yx = resolveSpec w e yx := by
  unfold collideTile resolveSpec
  dsimp only
  by_cases hb : 0 ≤ yx.2 ∧ yx.2 < (WORLD_WIDTH_TILES : ℤ) ∧ 0 ≤ yx.1 ∧ yx.1 < (w.length : ℤ)
  · rw [if_pos hb, if_pos hb]
    cases hg : getTileI w yx.1 yx.2 with
    | none => rfl
    | some tile =>
      dsimp only
      by_cases hs : tile.type = TileType.sky
      · rw [if_neg (not_not_intro hs), if_pos hs]
      · rw [if_pos hs, if_neg hs]
        by_cases ho : e.x < (yx.2 : ℚ) * TILE_SIZE + TILE_SIZE ∧
            (yx.2 : ℚ) * TILE_SIZE < e.x + e.width ∧
            e.y < (yx.1 : ℚ) * TILE_SIZE + TILE_SIZE ∧
            (yx.1 : ℚ) * TILE_SIZE < e.y + e.height
        · rw [if_pos ho, if_pos ho]
          by_cases hv : e.vy > 0 ∧ e.y + e.height ≤ (yx.1 : ℚ) * TILE_SIZE + TILE_SIZE ∧
              e.y + e.height ≥ (yx.1 : ℚ) * TILE_SIZE
          · rw [if_pos hv, if_pos ⟨hv.1, hv.2.2, hv.2.1⟩]
          · rw [if_neg hv,
                if_neg (show ¬(e.vy > 0 ∧ (yx.1 : ℚ) * TILE_SIZE ≤ e.y + e.height ∧
                    e.y + e.height ≤ (yx.1 : ℚ) * TILE_SIZE + TILE_SIZE) from
                  fun hx => hv ⟨hx.1, hx.2.2, hx.2.1⟩)]
        · rw [if_neg ho, if_neg ho]
  · rw [if_neg hb, if_neg hb]

/-- C3 (amended): one physics tick equals the claimed pipeline —
integrate gravity and velocity, clamp x into [0, worldWidthPixels -
width], then resolve the scanned tiles in top-to-bottom, left-to-right
order with the claimed precedence — where the scan rectangle is the
tile-index rectangle of the clamped AABB computed with the source's
inclusive pixel convention (floor of x .. x + width - 1), which skips a
tile overlapped by less than one pixel on its right or bottom edge. -/
theorem c3_physics_tick (e : Entity) (w : World)
    (hw : e.width ≤ WORLD_WIDTH_PIXELS) :
    updateEntityPosition e w = physicsTickSpec e w := by
  have hfun : collideTile w = resolveSpec w :=
    funext fun a => funext fun yx => collide_eq_resolve w a yx
  have h3 : updateEntityPosition e w =
      (scanIndices ⌊(clampIfs (integrateSpec e)).y / TILE_SIZE⌋
        ⌊((clampIfs (integrateSpec e)).y + (clampIfs (integrateSpec e)).height - 1) / TILE_SIZE⌋
        ⌊(clampIfs (integrateSpec e)).x / TILE_SIZE⌋
        ⌊((clampIfs (integrateSpec e)).x + (clampIfs (integrateSpec e)).width - 1) / TILE_SIZE⌋).foldl
        (collideTile w) (clampIfs (integrateSpec e)) := rfl
  rw [h3, clampIfs_eq_spec (integrateSpec e) hw, hfun]
  rfl

/-- Witness for C3: the amended pipeline equality discharged on a
concrete falling player over the generated world. -/
theorem c3_physics_tick_witness :
    updateEntityPosition { defaultEntity with y := 403, vy := 2 } generateWorld =
      physicsTickSpec { defaultEntity with y := 403, vy := 2 } generateWorld :=
  c3_physics_tick { defaultEntity with y := 403, vy := 2 } generateWorld
    (by norm_num [defaultEntity, WORLD_WIDTH_PIXELS, WORLD_WIDTH_TILES, TILE_SIZE])

/-- An entity moving right by half a pixel: after integration its AABB
is [1/2, 41/2) x [0, 5). -/
def c3Entity : Entity :=
  { defaultEntity with x := 0, y := 0, width := 20, height := 5, vx := 1/2, vy := -1/2 }

/-- A one-row world: a sky tile in column 0, a grass tile in column 1. -/
def c3World : World :=
  [[{ type := TileType.sky, crop := none }, { type := TileType.grass, crop := none }]]

/-- Counterexample to C3 as stated: after the tick the entity penetrates
the non-sky grass tile of column 1 (its AABB [1/2, 41/2) x [0, 5)
overlaps the tile box [20, 40) x [0, 20)) while vy = 0 and vx = 1/2 > 0,
so the claimed resolution of every overlapping non-Sky tile would have
snapped x to the tile's left edge minus the width and zeroed vx; the
source never scans column 1, because the scan rectangle is computed from
floor((x + width - 1) / TILE_SIZE) = 0 and the half-pixel overlap is
lost. -/
theorem c3_physics_tick_counterexample :
    getTileI c3World 0 1 = some { type := TileType.grass, crop := none } ∧
    (updateEntityPosition c3Entity c3World).vy = 0 ∧
    (updateEntityPosition c3Entity c3World).vx = 1/2 ∧
    (updateEntityPosition c3Entity c3World).x = 1/2 ∧
    (updateEntityPosition c3Entity c3World).x < (1 : ℚ) * TILE_SIZE + TILE_SIZE ∧
    (1 : ℚ) * TILE_SIZE <
      (updateEntityPosition c3Entity c3World).x + (updateEntityPosition c3Entity c3World).width ∧
    (updateEntityPosition c3Entity c3World).y < (0 : ℚ) * TILE_SIZE + TILE_SIZE ∧
    (0 : ℚ) * TILE_SIZE <
      (updateEntityPosition c3Entity c3World).y + (updateEntityPosition c3Entity c3World).height := by
  have hr : updateEntityPosition c3Entity c3World =
      { c3Entity with x := 1/2, y := 0, vx := 1/2, vy := 0, onGround := false } := by
    norm_num [updateEntityPosition, c3Entity, c3World, defaultEntity, GRAVITY,
      TILE_SIZE, WORLD_WIDTH_PIXELS, WORLD_WIDTH_TILES, scanIndices, intRange,
      collideTile, getTileI, List.range_succ]
  rw [hr]
  refine ⟨by decide, rfl, rfl, rfl, ?_, ?_, ?_, ?_⟩
  all_goals norm_num [c3Entity, defaultEntity, TILE_SIZE]

/-! ## Claim C5: manual plant / harvest preconditions -/

/-- C5: planting succeeds only on a Tilled, crop-free tile with a seed
in stock, harvesting only on a CropGrown tile with a mature crop; when
the target tile fails the precondition the handler returns the world and
the player unchanged and emits a status toast. -/
theorem c5_manual_preconditions (p : Entity) (sel : CropType) (now : ℤ) (w : World)
    (tile : Tile) (hveh : p.isInVehicle = false) (hw : w ≠ [])
    (hy : targetTileY p < (WORLD_HEIGHT_TILES : ℤ))
    (hx : targetTileX p < (WORLD_WIDTH_TILES : ℤ))
    (htile : getTileI w (targetTileY p) (targetTileX p) = some tile) :
    (¬ (tile.type = TileType.tilled ∧ tile.crop = none ∧ 0 < seedCount sel p.inventory) →
      ∃ msg, handlePlantCrop p sel now w = some ⟨w, p, some msg⟩) ∧
    (¬ (tile.type = TileType.cropGrown ∧
        ∃ c, tile.crop = some c ∧ c.stage = CROP_STAGE_MATURE) →
      ∃ msg, handleHarvestCrop p w = some ⟨w, p, some msg⟩) := by
  constructor
  · intro hpre
    unfold handlePlantCrop
    rw [hveh, if_neg (by simp), if_neg hw, if_pos ⟨hy, hx⟩, htile]
    dsimp only
    by_cases h1 : tile.type = TileType.tilled ∧ tile.crop = none
    · rw [if_pos h1]
      have hseed : ¬ 0 < seedCount sel p.inventory := fun hs => hpre ⟨h1.1, h1.2, hs⟩
      rw [if_neg (by simpa using hseed)]
      exact ⟨noSeedsMsg sel, rfl⟩
    · rw [if_neg h1]
      by_cases h2 : tile.crop = none
      · rw [if_neg (not_not_intro h2)]
        exact ⟨"Needs tilled soil!", rfl⟩
      · rw [if_pos h2]
        exact ⟨"Already something here!", rfl⟩
  · intro hpre
    unfold handleHarvestCrop
    rw [hveh, if_neg (by simp), if_neg hw, if_pos ⟨hy, hx⟩, htile]
    dsimp only
    cases hc : tile.crop with
    | none => exact ⟨"Nothing to harvest here!", rfl⟩
    | some c =>
      dsimp only
      have hng : ¬ (tile.type = TileType.cropGrown ∧ c.stage = CROP_STAGE_MATURE) :=
        fun hgm => hpre ⟨hgm.1, c, hc, hgm.2⟩
      rw [if_neg hng]
      by_cases hm : c.stage = CROP_STAGE_MATURE
      · rw [if_neg (not_not_intro hm)]
        exact ⟨"Nothing to harvest here!", rfl⟩
      · rw [if_pos hm]
        exact ⟨"Crop not mature yet!", rfl⟩

/-- The player standing in the generated world: the target tile (22, 37)
is grass, so both the plant and the harvest precondition fail. -/
def c5Player : Entity :=
  { defaultEntity with x := WORLD_WIDTH_PIXELS / 4, y := 404, width := 18, height := 36 }

/-- Witness for C5: on the grass target tile both handlers leave the
state unchanged and emit a toast. -/
theorem c5_manual_preconditions_witness :
    (∃ msg, handlePlantCrop c5Player CropType.wheat 0 generateWorld =
      some ⟨generateWorld, c5Player, some msg⟩) ∧
    (∃ msg, handleHarvestCrop c5Player generateWorld =
      some ⟨generateWorld, c5Player, some msg⟩) := by
  have hty : targetTileY c5Player = 22 := by
    norm_num [targetTileY, c5Player, defaultEntity, TILE_SIZE]
  have htx : targetTileX c5Player = 37 := by
    norm_num [targetTileX, c5Player, defaultEntity, TILE_SIZE,
      WORLD_WIDTH_PIXELS, WORLD_WIDTH_TILES]
  have hgt : getTileI generateWorld (targetTileY c5Player) (targetTileX c5Player) =
      some { type := TileType.grass, crop := none } := by
    rw [hty, htx]
    decide
  have h := c5_manual_preconditions c5Player CropType.wheat 0 generateWorld
    { type := TileType.grass, crop := none } rfl (by decide)
    (by rw [hty]; decide) (by rw [htx]; decide) hgt
  exact ⟨h.1 (by rintro ⟨hh, -⟩; exact absurd hh (by decide)),
         h.2 (by rintro ⟨hh, -⟩; exact absurd hh (by decide))⟩

/-! ## Claim C6: out-of-bounds tile access -/

lemma mapIdxFrom_id (f : ℕ → α → α) (hf : ∀ i a, f i a = a) :
    ∀ (i : ℕ) (l : List α), mapIdxFrom f i l = l := by
  intro i l
  induction l generalizing i with
  | nil => rfl
  | cons a as ih => rw [mapIdxFrom, hf i a, ih (i + 1)]

/-- A player standing just left of the world wall: the target tile
column floor((-20 + 9) / 20) is -1, inside the upper-bound-only guard. -/
def c6Player : Entity :=
  { defaultEntity with x := -20, y := 464, width := 18, height := 36 }

/-- C6, evaluated at the failing input: with target tile (-1, 25), the
guard tileY < WORLD_HEIGHT_TILES and tileX < WORLD_WIDTH_TILES passes,
handlePlantCrop and handleHarvestCrop dereference the undefined
world[25][-1] and throw (the embedding returns none), while
handleTillSoil, which only compares indices, is a safe no-op. -/
theorem c6_oob_code_bug :
    targetTileX c6Player = -1 ∧
    targetTileY c6Player = 25 ∧
    handlePlantCrop c6Player CropType.wheat 0 generateWorld = none ∧
    handleHarvestCrop c6Player generateWorld = none ∧
    handleTillSoil c6Player generateWorld = generateWorld := by
  have htx : targetTileX c6Player = -1 := by
    norm_num [targetTileX, c6Player, defaultEntity, TILE_SIZE]
  have hty : targetTileY c6Player = 25 := by
    norm_num [targetTileY, c6Player, defaultEntity, TILE_SIZE]
  refine ⟨htx, hty, ?_, ?_, ?_⟩
  · unfold handlePlantCrop
    rw [if_neg (by decide), if_neg (by decide), hty, htx,
        if_pos (by decide), show getTileI generateWorld 25 (-1) = none from by decide]
  · unfold handleHarvestCrop
    rw [if_neg (by decide), if_neg (by decide), hty, htx,
        if_pos (by decide), show getTileI generateWorld 25 (-1) = none from by decide]
  · unfold handleTillSoil
    rw [if_neg (by decide), if_neg (by decide), hty, htx, if_pos (by decide)]
    refine mapIdxFrom_id _ (fun y row => ?_) 0 generateWorld
    refine mapIdxFrom_id _ (fun x tile => ?_) 0 row
    rw [if_neg]
    rintro ⟨h1, -⟩
    omega

/-! ## Claim C4: harvests never exceed maxStorage -/

/-- The inventory update the source performs after a combine pass: each
harvested-crop count is raised by the units cut this pass. -/
def creditHarvest (h : CropType → ℕ) (inv : Inventory) : Inventory :=
  { inv with wheat := inv.wheat + h CropType.wheat
             corn := inv.corn + h CropType.corn
             potato := inv.potato + h CropType.potato }

lemma cropCount_credit (ck : CropType) (h : CropType → ℕ) (inv : Inventory) :
    cropCount ck (creditHarvest h inv) = cropCount ck inv + h ck := by
  cases ck <;> rfl

lemma cropCount_inc (ck c : CropType) (inv : Inventory) :
    cropCount ck (incCrop c inv) =
      if ck = c then cropCount ck inv + 1 else cropCount ck inv := by
  cases ck <;> cases c <;> simp [cropCount, incCrop]

lemma manualHarvest_cap (p : Entity) (w : World) (res : ActionResult)
    (hcap : ∀ ck, cropCount ck p.inventory ≤ p.maxStorage)
    (hres : handleHarvestCrop p w = some res) :
    ∀ ck, cropCount ck res.player.inventory ≤ res.player.maxStorage := by
  unfold handleHarvestCrop at hres
  dsimp only at hres
  split at hres
  · cases hres
    exact hcap
  · split at hres
    · cases hres
      exact hcap
    · split at hres
      · split at hres
        · exact absurd hres (by simp)
        · rename_i tile hgt
          split at hres
          · rename_i c hc
            split at hres
            · split at hres
              · rename_i hgm hlt
                cases hres
                intro ck
                dsimp only
                rw [cropCount_inc]
                split_ifs with he
                · subst he
                  omega
                · exact hcap ck
              · cases hres
                exact hcap
            · split at hres
              · cases hres
                exact hcap
              · cases hres
                exact hcap
          · cases hres
            exact hcap
      · cases hres
        exact hcap

lemma combineLoop_cap (p : Entity) (cy : ℤ) :
    ∀ (xs : List ℤ) (w : World) (h : CropType → ℕ) (w2 : World) (h2 : CropType → ℕ),
    (∀ ck, cropCount ck p.inventory + h ck ≤ p.maxStorage) →
    combineLoop p cy xs w h = some (w2, h2) →
    ∀ ck, cropCount ck p.inventory + h2 ck ≤ p.maxStorage := by
  intro xs
  induction xs with
  | nil =>
    intro w h w2 h2 hcap hres
    unfold combineLoop at hres
    simp only [Option.some.injEq, Prod.mk.injEq] at hres
    obtain ⟨-, rfl⟩ := hres
    exact hcap
  | cons x rest ih =>
    intro w h w2 h2 hcap hres
    unfold combineLoop at hres
    split at hres
    · split at hres
      · exact absurd hres (by simp)
      · rename_i tile hgt
        split at hres
        · rename_i c hc
          split at hres
          · split at hres
            · rename_i hgm hroom
              refine ih _ _ _ _ ?_ hres
              intro ck
              dsimp only
              by_cases he : ck = c.type
              · subst he
                rw [if_pos rfl]
                omega
              · rw [if_neg he]
                exact hcap ck
            · simp only [Option.some.injEq, Prod.mk.injEq] at hres
              obtain ⟨-, rfl⟩ := hres
              exact hcap
          · exact ih _ _ _ _ hcap hres
        · exact ih _ _ _ _ hcap hres
    · exact ih _ _ _ _ hcap hres

lemma combine_cap (cb p : Entity) (w : World) (w2 : World) (h2 : CropType → ℕ)
    (hcap : ∀ ck, cropCount ck p.inventory ≤ p.maxStorage)
    (hres : applyCombineAction cb p w = some (w2, h2)) :
    ∀ ck, cropCount ck (creditHarvest h2 p.inventory) ≤ p.maxStorage := by
  intro ck
  rw [cropCount_credit]
  unfold applyCombineAction at hres
  split at hres
  · simp only [Option.some.injEq, Prod.mk.injEq] at hres
    obtain ⟨-, rfl⟩ := hres
    simpa using hcap ck
  · split at hres
    · simp only [Option.some.injEq, Prod.mk.injEq] at hres
      obtain ⟨-, rfl⟩ := hres
      simpa using hcap ck
    · exact combineLoop_cap p _ _ w _ w2 h2 (fun k => by simpa using hcap k) hres ck

/-- C4: starting from an inventory whose crop counts are all at most
maxStorage, a manual harvest never pushes any count past maxStorage (it
credits one unit only when the current count is strictly below the cap),
and one combine pass never pushes any count past maxStorage (it stops
crediting once the snapshot count plus the units cut this pass would
reach the cap). -/
theorem c4_storage_cap :
    (∀ (p : Entity) (w : World) (res : ActionResult),
      (∀ ck, cropCount ck p.inventory ≤ p.maxStorage) →
      handleHarvestCrop p w = some res →
      ∀ ck, cropCount ck res.player.inventory ≤ res.player.maxStorage) ∧
    (∀ (cb p : Entity) (w w2 : World) (h2 : CropType → ℕ),
      (∀ ck, cropCount ck p.inventory ≤ p.maxStorage) →
      applyCombineAction cb p w = some (w2, h2) →
      ∀ ck, cropCount ck (creditHarvest h2 p.inventory) ≤ p.maxStorage) :=
  ⟨manualHarvest_cap, fun cb p w w2 h2 hcap hres => combine_cap cb p w w2 h2 hcap hres⟩

/-- Witness for C4: the combine branch discharged on a concrete stopped
combine (vx = 0), whose pass harvests nothing. -/
theorem c4_storage_cap_witness :
    ∀ ck, cropCount ck (creditHarvest (fun _ => 0) defaultEntity.inventory) ≤
      defaultEntity.maxStorage :=
  c4_storage_cap.2 defaultEntity defaultEntity generateWorld generateWorld (fun _ => 0)
    (by intro ck; cases ck <;> decide) (by unfold applyCombineAction; rw [if_pos]; decide)

/-! ## Claim C1: tile well-formedness is an invariant -/

lemma mapIdxFrom_pres {P : α → Prop} (f : ℕ → α → α)
    (hf : ∀ i a, P a → P (f i a)) :
    ∀ (l : List α) (i : ℕ), (∀ a ∈ l, P a) → ∀ b ∈ mapIdxFrom f i l, P b := by
  intro l
  induction l with
  | nil =>
    intro i h b hb
    simp [mapIdxFrom] at hb
  | cons a as ih =>
    intro i h b hb
    rw [mapIdxFrom] at hb
    rcases List.mem_cons.mp hb with rfl | hb2
    · exact hf i a (h a (List.mem_cons_self a as))
    · exact ih (i + 1) (fun x hx => h x (List.mem_cons_of_mem a hx)) b hb2

lemma worldAll_setTile {P : Tile → Prop} (w : World) (y x : ℤ) (t : Tile)
    (hw : WorldAll P w) (ht : P t) : WorldAll P (setTile w y x t) := by
  unfold setTile
  split
  · intro row hrow t2 ht2
    rcases List.mem_or_eq_of_mem_set hrow with hrow2 | rfl
    · exact hw row hrow2 t2 ht2
    · rcases List.mem_or_eq_of_mem_set ht2 with ht3 | rfl
      · cases hg : List.get? w y.toNat with
        | none =>
          rw [hg] at ht3
          simp at ht3
        | some row0 =>
          rw [hg] at ht3
          exact hw row0 (List.get?_mem hg) t2 ht3
      · exact ht
  · exact hw

/-- A tile whose crop field is none is well-formed. -/
lemma tileWFs_of_crop_none (t : Tile) (h : t.crop = none) : TileWFs t := by
  intro c hc
  rw [h] at hc
  cases hc

/-- Under the invariant, a grass or dirt tile has no crop, so retyping
it to tilled keeps the invariant. -/
lemma tileWFs_till (t : Tile) (h : TileWFs t)
    (hcond : t.type = TileType.grass ∨ t.type = TileType.dirt) :
    TileWFs { t with type := TileType.tilled } := by
  intro c hc
  have hc2 : t.crop = some c := hc
  rcases h c hc2 with ⟨h1, -⟩ | ⟨h1, -⟩ <;> rcases hcond with h2 | h2 <;>
    rw [h1] at h2 <;> cases h2

/-- A freshly planted tile (stage SEED) is well-formed. -/
lemma tileWFs_plant (t : Tile) (sel : CropType) (now : ℤ) :
    TileWFs { t with type := TileType.cropPlanted
                     crop := some { type := sel, stage := CROP_STAGE_SEED,
                                    plantedTime := now } } := by
  intro c hc
  simp only [Option.some.injEq] at hc
  subst hc
  refine Or.inl ⟨rfl, ?_⟩
  show CROP_STAGE_SEED < CROP_STAGE_MATURE
  decide

/-- A harvested tile (tilled, no crop) is well-formed. -/
lemma tileWFs_harvest (t : Tile) :
    TileWFs { t with type := TileType.tilled, crop := none } :=
  tileWFs_of_crop_none _ rfl

/-- The growth step preserves the invariant: a planted crop below MATURE
either stays planted below MATURE or becomes exactly MATURE and
CropGrown. -/
lemma tileWFs_grow (now : ℤ) (t : Tile) (h : TileWFs t) :
    TileWFs (growTile now t) := by
  unfold growTile
  cases hc : t.crop with
  | none => exact h
  | some c =>
    dsimp only
    by_cases hp : t.type = TileType.cropPlanted
    · rw [if_pos hp]
      by_cases hD : now - c.plantedTime ≥ GROWTH_TIME_PER_STAGE * ((c.stage : ℤ) + 1)
      · rw [if_pos hD]
        rcases h c hc with ⟨-, hs⟩ | ⟨hg, -⟩
        · intro c2 hc2
          simp only [Option.some.injEq] at hc2
          subst hc2
          by_cases hm : CROP_STAGE_MATURE ≤ c.stage + 1
          · rw [if_pos hm]
            refine Or.inr ⟨rfl, ?_⟩
            show c.stage + 1 = CROP_STAGE_MATURE
            unfold CROP_STAGE_MATURE at *
            omega
          · rw [if_neg hm]
            refine Or.inl ⟨rfl, ?_⟩
            show c.stage + 1 < CROP_STAGE_MATURE
            unfold CROP_STAGE_MATURE at *
            omega
        · rw [hp] at hg
          cases hg
      · rw [if_neg hD]
        exact h
    · rw [if_neg hp]
      exact h

lemma worldAll_till (p : Entity) (w : World) (h : WorldAll TileWFs w) :
    WorldAll TileWFs (handleTillSoil p w) := by
  unfold handleTillSoil
  split
  · exact h
  · split
    · exact h
    · dsimp only
      split
      · refine mapIdxFrom_pres (P := fun row => ∀ t ∈ row, TileWFs t) _ ?_ w 0 h
        intro y row hrow
        refine mapIdxFrom_pres (P := TileWFs) _ ?_ row 0 hrow
        intro x tile htile
        split
        · rename_i hcond
          exact tileWFs_till tile htile hcond.2.2
        · exact htile
      · exact h

lemma worldAll_plantAt (w : World) (tileY tileX : ℤ) (sel : CropType) (now : ℤ)
    (h : WorldAll TileWFs w) : WorldAll TileWFs (plantAt w tileY tileX sel now) := by
  unfold plantAt
  refine mapIdxFrom_pres (P := fun row => ∀ t ∈ row, TileWFs t) _ ?_ w 0 h
  intro y row hrow
  refine mapIdxFrom_pres (P := TileWFs) _ ?_ row 0 hrow
  intro x tile htile
  split
  · exact tileWFs_plant tile sel now
  · exact htile

lemma worldAll_harvestAt (w : World) (tileY tileX : ℤ)
    (h : WorldAll TileWFs w) : WorldAll TileWFs (harvestAt w tileY tileX) := by
  unfold harvestAt
  refine mapIdxFrom_pres (P := fun row => ∀ t ∈ row, TileWFs t) _ ?_ w 0 h
  intro y row hrow
  refine mapIdxFrom_pres (P := TileWFs) _ ?_ row 0 hrow
  intro x tile htile
  split
  · exact tileWFs_harvest tile
  · exact htile

lemma plantCrop_world (p : Entity) (sel : CropType) (now : ℤ) (w : World)
    (r : ActionResult) (h : WorldAll TileWFs w)
    (hres : handlePlantCrop p sel now w = some r) : WorldAll TileWFs r.world := by
  unfold handlePlantCrop at hres
  dsimp only at hres
  split at hres
  · cases hres
    exact h
  · split at hres
    · cases hres
      exact h
    · split at hres
      · split at hres
        · exact absurd hres (by simp)
        · split at hres
          · split at hres
            · cases hres
              exact worldAll_plantAt w _ _ sel now h
            · cases hres
              exact h
          · split at hres
            · cases hres
              exact h
            · cases hres
              exact h
      · cases hres
        exact h

lemma harvestCrop_world (p : Entity) (w : World) (r : ActionResult)
    (h : WorldAll TileWFs w)
    (hres : handleHarvestCrop p w = some r) : WorldAll TileWFs r.world := by
  unfold handleHarvestCrop at hres
  dsimp only at hres
  split at hres
  · cases hres
    exact h
  · split at hres
    · cases hres
      exact h
    · split at hres
      · split at hres
        · exact absurd hres (by simp)
        · split at hres
          · split at hres
            · split at hres
              · cases hres
                exact worldAll_harvestAt w _ _ h
              · cases hres
                exact h
            · split at hres
              · cases hres
                exact h
              · cases hres
                exact h
          · cases hres
            exact h
      · cases hres
        exact h

lemma plowLoop_world (plowE : Entity) (plowY : ℤ) :
    ∀ (xs : List ℕ) (w w2 : World), WorldAll TileWFs w →
      plowLoop plowE plowY xs w = some w2 → WorldAll TileWFs w2 := by
  intro xs
  induction xs with
  | nil =>
    intro w w2 h hres
    unfold plowLoop at hres
    simp only [Option.some.injEq] at hres
    subst hres
    exact h
  | cons i rest ih =>
    intro w w2 h hres
    unfold plowLoop at hres
    dsimp only at hres
    split at hres
    · split at hres
      · exact absurd hres (by simp)
      · rename_i tile hgt
        split at hres
        · rename_i hcond
          refine ih _ w2 ?_ hres
          exact worldAll_setTile w _ _ _ h
            (tileWFs_of_crop_none { tile with type := TileType.tilled } hcond.2)
        · exact ih _ w2 h hres
    · exact ih _ w2 h hres

lemma seederLoop_world (sd p : Entity) (sel : CropType) (now seederY : ℤ) :
    ∀ (xs : List ℕ) (w : World) (consumed : ℕ) (w2 : World) (c2 : ℕ),
      WorldAll TileWFs w →
      seederLoop sd p sel now seederY xs w consumed = some (w2, c2) →
      WorldAll TileWFs w2 := by
  intro xs
  induction xs with
  | nil =>
    intro w consumed w2 c2 h hres
    unfold seederLoop at hres
    simp only [Option.some.injEq, Prod.mk.injEq] at hres
    obtain ⟨rfl, -⟩ := hres
    exact h
  | cons i rest ih =>
    intro w consumed w2 c2 h hres
    unfold seederLoop at hres
    dsimp only at hres
    split at hres
    · split at hres
      · exact absurd hres (by simp)
      · rename_i tile hgt
        split at hres
        · split at hres
          · refine ih _ _ w2 c2 ?_ hres
            exact worldAll_setTile w _ _ _ h (tileWFs_plant tile sel now)
          · exact ih _ _ w2 c2 h hres
        · exact ih _ _ w2 c2 h hres
    · exact ih _ _ w2 c2 h hres

lemma combineLoop_world (p : Entity) (cy : ℤ) :
    ∀ (xs : List ℤ) (w : World) (hv : CropType → ℕ) (w2 : World) (h2 : CropType → ℕ),
      WorldAll TileWFs w →
      combineLoop p cy xs w hv = some (w2, h2) → WorldAll TileWFs w2 := by
  intro xs
  induction xs with
  | nil =>
    intro w hv w2 h2 h hres
    unfold combineLoop at hres
    simp only [Option.some.injEq, Prod.mk.injEq] at hres
    obtain ⟨rfl, -⟩ := hres
    exact h
  | cons x rest ih =>
    intro w hv w2 h2 h hres
    unfold combineLoop at hres
    split at hres
    · split at hres
      · exact absurd hres (by simp)
      · rename_i tile hgt
        split at hres
        · split at hres
          · split at hres
            · refine ih _ _ w2 h2 ?_ hres
              exact worldAll_setTile w _ _ _ h (tileWFs_harvest tile)
            · simp only [Option.some.injEq, Prod.mk.injEq] at hres
              obtain ⟨rfl, -⟩ := hres
              exact h
          · exact ih _ _ w2 h2 h hres
        · exact ih _ _ w2 h2 h hres
    · exact ih _ _ w2 h2 h hres

lemma worldAll_growth (now : ℤ) (w : World) (h : WorldAll TileWFs w) :
    WorldAll TileWFs (updateCropGrowth now w) := by
  unfold updateCropGrowth
  split
  · exact h
  · refine mapIdxFrom_pres (P := fun row => ∀ t ∈ row, TileWFs t) _ ?_ w 0 h
    intro y row hrow
    split
    · refine mapIdxFrom_pres (P := TileWFs) _ ?_ row 0 hrow
      intro x tile htile
      split
      · exact tileWFs_grow now tile htile
      · exact htile
    · exact hrow

lemma worldAll_generate : WorldAll TileWFs generateWorld := by
  intro row hrow t ht
  unfold generateWorld at hrow
  rcases List.mem_map.mp hrow with ⟨y, -, rfl⟩
  rcases List.mem_map.mp ht with ⟨x, -, rfl⟩
  refine tileWFs_of_crop_none _ ?_
  split
  · rfl
  · split
    · rfl
    · rfl

lemma applyOpW_pres (op : Op) (w : World) (h : WorldAll TileWFs w) :
    WorldAll TileWFs (applyOpW op w) := by
  cases op with
  | till p => exact worldAll_till p w h
  | plant p sel now =>
    unfold applyOpW
    dsimp only
    cases hres : handlePlantCrop p sel now w with
    | none => exact h
    | some r =>
      exact plantCrop_world p sel now w r h hres
  | harvest p =>
    unfold applyOpW
    dsimp only
    cases hres : handleHarvestCrop p w with
    | none => exact h
    | some r =>
      exact harvestCrop_world p w r h hres
  | plowAction tr plowE =>
    unfold applyOpW
    dsimp only
    cases hres : applyPlowAction tr plowE w with
    | none => exact h
    | some w2 =>
      unfold applyPlowAction at hres
      split at hres
      · simp only [Option.some.injEq] at hres
        subst hres
        exact h
      · split at hres
        · simp only [Option.some.injEq] at hres
          subst hres
          exact h
        · exact plowLoop_world plowE _ _ w w2 h hres
  | seederAction tr sd p sel now =>
    unfold applyOpW
    dsimp only
    cases hres : applySeederAction tr sd p sel now w with
    | none => exact h
    | some r =>
      unfold applySeederAction at hres
      split at hres
      · simp only [Option.some.injEq] at hres
        subst hres
        exact h
      · split at hres
        · simp only [Option.some.injEq] at hres
          subst hres
          exact h
        · exact seederLoop_world sd p sel now _ _ w 0 r.1 r.2 h (by rw [hres])
  | combineAction cb p =>
    unfold applyOpW
    dsimp only
    cases hres : applyCombineAction cb p w with
    | none => exact h
    | some r =>
      unfold applyCombineAction at hres
      split at hres
      · simp only [Option.some.injEq] at hres
        subst hres
        exact h
      · split at hres
        · simp only [Option.some.injEq] at hres
          subst hres
          exact h
        · exact combineLoop_world p _ _ w _ r.1 r.2 h (by rw [hres])
  | growth now => exact worldAll_growth now w h

lemma applyOps_wfs (ops : List Op) : WorldAll TileWFs (applyOps ops generateWorld) := by
  suffices hstep : ∀ w, WorldAll TileWFs w → WorldAll TileWFs (applyOps ops w) from
    hstep generateWorld worldAll_generate
  induction ops with
  | nil => exact fun w h => h
  | cons op rest ih => exact fun w h => ih (applyOpW op w) (applyOpW_pres op w h)

lemma tileWF_of_wfs (t : Tile) (h : TileWFs t) : TileWF t := by
  intro c hc
  rcases h c hc with ⟨h1, -⟩ | ⟨h1, h2⟩
  · refine ⟨Or.inl h1, fun hg => ?_⟩
    rw [h1] at hg
    cases hg
  · exact ⟨Or.inr h1, fun _ => h2⟩

/-- C1: starting from the generated world, any sequence of
world-mutating operations (tilling, planting, harvesting, the plow /
seeder / combine automated actions, crop growth), with arbitrary
parameters, yields a world in which every tile satisfies the stated
invariant: crop is non-null only on CropPlanted / CropGrown tiles, and
a CropGrown tile carries a crop at stage MATURE. -/
theorem c1_tile_invariant (ops : List Op) :
    WorldAll TileWF (applyOps ops generateWorld) :=
  fun row hrow t ht => tileWF_of_wfs t (applyOps_wfs ops row hrow t ht)

end FS2D
